import Mathlib

/-!
Verification of the struct-chain matching and merging logic of the generated
Vulkan profiles adapter (`vulkan_profiles.cpp`).

The embedding models Vulkan struct chains shallowly:
  * a chain link (`VkBaseOutStructure` and the capability structures that
    extend it) becomes a `VkStruct`: a structure type tag (`sType`, a `Nat`
    standing for the `VkStructureType` enum value) together with the list of
    `VkBool32` feature words that follow the `sType`/`pNext` header
    (`flags : List Nat`, `VK_TRUE = 1`, `VK_FALSE = 0`);
  * a pointer chain becomes a `List VkStruct`, in pointer order, the head of
    the list being the struct the chain pointer points at;
  * C strings (profile names, block names, extension names) become `Nat`
    identifiers compared for equality, mirroring `strcmp`-based comparison.

Partial C++ operations (null-pointer dereference, out-of-bounds access)
return `Option`, with `none` marking the undefined execution.
-/

/-- VkStructureType value of VK_STRUCTURE_TYPE_PHYSICAL_DEVICE_FEATURES_2_KHR. -/
def VK_STRUCTURE_TYPE_PHYSICAL_DEVICE_FEATURES_2_KHR : Nat := 1000059000

/-- VkStructureType value of VK_STRUCTURE_TYPE_PHYSICAL_DEVICE_ROBUSTNESS_2_FEATURES_EXT. -/
def VK_STRUCTURE_TYPE_PHYSICAL_DEVICE_ROBUSTNESS_2_FEATURES_EXT : Nat := 1000286000

/-- VkStructureType value of VK_STRUCTURE_TYPE_PHYSICAL_DEVICE_IMAGE_ROBUSTNESS_FEATURES_EXT. -/
def VK_STRUCTURE_TYPE_PHYSICAL_DEVICE_IMAGE_ROBUSTNESS_FEATURES_EXT : Nat := 1000335000

/-- VkStructureType value of VK_STRUCTURE_TYPE_PHYSICAL_DEVICE_VULKAN_1_3_FEATURES. -/
def VK_STRUCTURE_TYPE_PHYSICAL_DEVICE_VULKAN_1_3_FEATURES : Nat := 53

/-- One link of a Vulkan struct chain: the structure type tag and the VkBool32
feature words that follow the common header.  `VK_TRUE = 1`, `VK_FALSE = 0`;
a `VkBool32` is a 32-bit word that may hold values other than 0 and 1, which
is why the payload is `List Nat` rather than `List Bool`. -/
structure VkStruct where
  sType : Nat
  flags : List Nat
deriving DecidableEq, Repr

/-- Embedding of `detail::vpGetStructure` (vulkan_profiles.cpp:55-71): walk the
chain and return the first link whose `sType` equals `type`, or null. -/
def vpGetStructure (pNext : List VkStruct) (type : Nat) : Option VkStruct :=
  match pNext with
  | [] => none
  | p :: rest => if p.sType = type then some p else vpGetStructure rest type

/-- Helper for `vpExtractStructure`: the walk once `previous` is non-null.  On
a match the found link is unchained (`previous->pNext = current->pNext`) and
returned with its own next pointer nulled, so the chain reachable from the
returned pointer is exactly the one found link. -/
def extractTail (chain : List VkStruct) (structureType : Nat) :
    Option (List VkStruct) × List VkStruct :=
  match chain with
  | [] => (none, [])
  | c :: rest =>
    if c.sType = structureType then (some [c], rest)
    else
      let r := extractTail rest structureType
      (r.1, c :: r.2)

/-- Embedding of `detail::vpExtractStructure` (vulkan_profiles.cpp:73-101).
The first component is the chain reachable from the returned pointer (`none`
for a null return); the second component is the chain reachable from the
caller's original `pFeatures` pointer after the call.  When the head itself
matches, no relinking happens (`previous` is null) and the head's next pointer
is nulled, so the caller's chain shrinks to the single head link. -/
def vpExtractStructure (pFeatures : List VkStruct) (structureType : Nat) :
    Option (List VkStruct) × List VkStruct :=
  if structureType = VK_STRUCTURE_TYPE_PHYSICAL_DEVICE_FEATURES_2_KHR then
    (none, pFeatures)
  else
    match pFeatures with
    | [] => (none, [])
    | h :: t =>
      if h.sType = structureType then (some [h], [h])
      else
        let r := extractTail t structureType
        (r.1, h :: r.2)

theorem extractTail_eq (l : List VkStruct) (t : Nat) :
    extractTail l t =
      match l.find? (fun s => s.sType = t) with
      | some s => (some [s], l.eraseP (fun s => s.sType = t))
      | none => (none, l) := by
  induction l with
  | nil => simp [extractTail]
  | cons c rest ih =>
    by_cases h : c.sType = t
    · simp [extractTail, h]
    · rw [extractTail]
      simp only [h, if_false]
      rw [ih]
      cases hf : rest.find? (fun s => decide (s.sType = t)) <;> simp [h, hf]

theorem vpGetStructure_eq_find? (l : List VkStruct) (t : Nat) :
    vpGetStructure l t = l.find? (fun s => s.sType = t) := by
  induction l with
  | nil => simp [vpGetStructure]
  | cons c rest ih =>
    by_cases h : c.sType = t
    · simp [vpGetStructure, h]
    · rw [vpGetStructure]
      simp only [h, if_false]
      rw [ih]
      simp [List.find?_cons, h]

theorem find?_eraseP_of_ne {l : List VkStruct} {t u : Nat} (h : t ≠ u) :
    (l.eraseP (fun s => s.sType = t)).find? (fun s => s.sType = u) =
      l.find? (fun s => s.sType = u) := by
  induction l with
  | nil => simp
  | cons c rest ih =>
    by_cases hc : c.sType = t
    · have hcu : ¬c.sType = u := by rw [hc]; exact h
      simp [List.eraseP_cons, List.find?_cons, hc, hcu, h]
    · by_cases hcu : c.sType = u
      · simp [List.eraseP_cons, List.find?_cons, hc, hcu, Ne.symm h]
      · simp [List.eraseP_cons, List.find?_cons, hc, hcu, ih]

theorem find?_eraseP_self {l : List VkStruct} {t : Nat}
    (hnd : (l.map VkStruct.sType).Nodup) :
    (l.eraseP (fun s => s.sType = t)).find? (fun s => s.sType = t) = none := by
  induction l with
  | nil => simp
  | cons c rest ih =>
    simp only [List.map_cons, List.nodup_cons] at hnd
    by_cases hc : c.sType = t
    · have he : List.eraseP (fun s : VkStruct => decide (s.sType = t)) (c :: rest) = rest := by
        simp [List.eraseP_cons, hc]
      rw [he, List.find?_eq_none]
      intro x hx
      simp only [decide_eq_true_eq]
      intro hxt
      exact hnd.1 (by rw [hc, ← hxt]; exact List.mem_map_of_mem VkStruct.sType hx)
    · have he : List.eraseP (fun s : VkStruct => decide (s.sType = t)) (c :: rest) =
          c :: List.eraseP (fun s : VkStruct => decide (s.sType = t)) rest := by
        simp [List.eraseP_cons, hc]
      rw [he]
      have hf : List.find? (fun s : VkStruct => decide (s.sType = t))
          (c :: List.eraseP (fun s : VkStruct => decide (s.sType = t)) rest) =
          List.find? (fun s : VkStruct => decide (s.sType = t))
            (List.eraseP (fun s : VkStruct => decide (s.sType = t)) rest) := by
        simp [List.find?_cons, hc]
      rw [hf, ih hnd.2]

/-- C7: over a well-formed chain (head tagged with the features-2 sentinel,
every tag occurring at most once), `vpExtractStructure` removes and returns
the first link whose type equals the requested tag, re-linking the chain
around it; it returns null when the tag is absent or is the sentinel head tag
(leaving the chain untouched); the chain reachable from the returned pointer
is exactly the one removed link (its next pointer is null); and a subsequent
`vpGetStructure` on the relinked chain for the same tag finds nothing. -/
theorem vpExtractStructure_spec (h : VkStruct) (t : List VkStruct) (tag : Nat)
    (hhead : h.sType = VK_STRUCTURE_TYPE_PHYSICAL_DEVICE_FEATURES_2_KHR)
    (hnd : ((h :: t).map VkStruct.sType).Nodup) :
    (vpExtractStructure (h :: t) VK_STRUCTURE_TYPE_PHYSICAL_DEVICE_FEATURES_2_KHR
        = (none, h :: t)) ∧
    (vpGetStructure (h :: t) tag = none → vpExtractStructure (h :: t) tag = (none, h :: t)) ∧
    (tag ≠ VK_STRUCTURE_TYPE_PHYSICAL_DEVICE_FEATURES_2_KHR →
      ∀ s, vpGetStructure (h :: t) tag = some s →
        vpExtractStructure (h :: t) tag =
          (some [s], h :: t.eraseP (fun x => x.sType = tag)) ∧
        vpGetStructure (h :: t.eraseP (fun x => x.sType = tag)) tag = none) := by
  refine ⟨by simp [vpExtractStructure], ?_, ?_⟩
  · intro habs
    rw [vpGetStructure_eq_find?] at habs
    by_cases hsent : tag = VK_STRUCTURE_TYPE_PHYSICAL_DEVICE_FEATURES_2_KHR
    · simp [vpExtractStructure, hsent]
    · have hh : ¬h.sType = tag := by
        intro he
        rw [List.find?_eq_none] at habs
        have := habs h (by simp)
        simp [he] at this
      rw [vpExtractStructure]
      simp only [hsent, if_false, hh, if_false]
      rw [extractTail_eq]
      have htail : t.find? (fun s => s.sType = tag) = none := by
        rw [List.find?_eq_none] at habs ⊢
        intro x hx
        exact habs x (List.mem_cons_of_mem h hx)
      simp [htail]
  · intro hsent s hfind
    have hh : ¬h.sType = tag := by
      intro he
      exact hsent (by rw [← he, hhead])
    rw [vpGetStructure_eq_find?] at hfind
    simp only [List.find?_cons, hh, decide_eq_true_eq, if_false] at hfind
    have hfind' : List.find? (fun s : VkStruct => decide (s.sType = tag)) t = some s := by
      rw [← hfind]
      cases hdec : decide (h.sType = tag)
      · rfl
      · exact absurd (of_decide_eq_true hdec) hh
    constructor
    · rw [vpExtractStructure]
      simp only [hsent, if_false, hh, if_false]
      rw [extractTail_eq, hfind']
    · rw [vpGetStructure_eq_find?]
      have hstep : List.find? (fun x : VkStruct => decide (x.sType = tag))
          (h :: List.eraseP (fun x : VkStruct => decide (x.sType = tag)) t) =
          List.find? (fun x : VkStruct => decide (x.sType = tag))
            (List.eraseP (fun x : VkStruct => decide (x.sType = tag)) t) := by
        simp [List.find?_cons, hh]
      rw [hstep]
      apply find?_eraseP_self
      simp only [List.map_cons, List.nodup_cons] at hnd
      exact hnd.2

/-- Witness for C7 at a concrete chain: head is the features-2 sentinel, the
tail holds tags 7 and 9; extracting tag 7 removes exactly that link and a
re-find misses. -/
theorem vpExtractStructure_spec_witness :
    (VkStruct.mk VK_STRUCTURE_TYPE_PHYSICAL_DEVICE_FEATURES_2_KHR []).sType
        = VK_STRUCTURE_TYPE_PHYSICAL_DEVICE_FEATURES_2_KHR ∧
    (vpExtractStructure
        [VkStruct.mk VK_STRUCTURE_TYPE_PHYSICAL_DEVICE_FEATURES_2_KHR [],
         VkStruct.mk 7 [1], VkStruct.mk 9 [0]] 7
      = (some [VkStruct.mk 7 [1]],
         [VkStruct.mk VK_STRUCTURE_TYPE_PHYSICAL_DEVICE_FEATURES_2_KHR [],
          VkStruct.mk 9 [0]])) := by
  refine ⟨rfl, ?_⟩
  have h := vpExtractStructure_spec
    (VkStruct.mk VK_STRUCTURE_TYPE_PHYSICAL_DEVICE_FEATURES_2_KHR [])
    [VkStruct.mk 7 [1], VkStruct.mk 9 [0]] 7 rfl (by decide)
  have h3 := (h.2.2 (by decide) (VkStruct.mk 7 [1]) (by decide)).1
  rw [h3]
  decide

/-- Embedding of `FeaturesChain::PushBack` (vulkan_profiles.cpp:1503-1509):
walk `requiredFeaturesChain` to its last link and attach `found` there.  In
the list model this appends the chain reachable from `found`. -/
def PushBack (requiredFeaturesChain : List VkStruct) (found : List VkStruct) :
    List VkStruct :=
  requiredFeaturesChain ++ found

/-- Embedding of `FeaturesChain::Build` (vulkan_profiles.cpp:1511-1525): for
each tag of `requiredList`, skip the features-2 sentinel, extract the matching
struct from the master chain and push it onto the required-features chain.
The state is the pair (master chain, required-features chain). -/
def Build (requiredList : List Nat) (master required : List VkStruct) :
    List VkStruct × List VkStruct :=
  match requiredList with
  | [] => (master, required)
  | sType :: rest =>
    if sType = VK_STRUCTURE_TYPE_PHYSICAL_DEVICE_FEATURES_2_KHR then
      Build rest master required
    else
      let r := vpExtractStructure master sType
      match r.1 with
      | none => Build rest r.2 required
      | some found => Build rest r.2 (PushBack required found)

theorem filterMap_find?_congr (L : List Nat) (f g : Nat → Option VkStruct)
    (h : ∀ tg ∈ L, f tg = g tg) : L.filterMap f = L.filterMap g := by
  induction L with
  | nil => simp
  | cons t rest ih =>
    rw [List.filterMap_cons, List.filterMap_cons, h t (by simp),
      ih (fun tg htg => h tg (List.mem_cons_of_mem t htg))]

theorem Build_go_spec (L : List Nat) (mh : VkStruct) (mt : List VkStruct)
    (req : List VkStruct)
    (hhead : mh.sType = VK_STRUCTURE_TYPE_PHYSICAL_DEVICE_FEATURES_2_KHR)
    (hft : VK_STRUCTURE_TYPE_PHYSICAL_DEVICE_FEATURES_2_KHR ∉ mt.map VkStruct.sType)
    (hnd : L.Nodup) :
    (Build L (mh :: mt) req).2 =
      req ++ L.filterMap (fun tg => mt.find? (fun s => s.sType = tg)) := by
  induction L generalizing mt req with
  | nil => simp [Build]
  | cons t rest ih =>
    rw [List.nodup_cons] at hnd
    by_cases hsent : t = VK_STRUCTURE_TYPE_PHYSICAL_DEVICE_FEATURES_2_KHR
    · rw [Build]
      simp only [hsent, if_true]
      have hnone : mt.find? (fun s => decide (s.sType =
          VK_STRUCTURE_TYPE_PHYSICAL_DEVICE_FEATURES_2_KHR)) = none := by
        rw [List.find?_eq_none]
        intro x hx
        simp only [decide_eq_true_eq]
        intro hxe
        exact hft (by rw [← hxe]; exact List.mem_map_of_mem VkStruct.sType hx)
      rw [List.filterMap_cons]
      simp only [hsent, hnone]
      exact ih mt req hft hnd.2
    · rw [Build]
      simp only [hsent, if_false]
      have hh : ¬mh.sType = t := by
        intro he
        exact hsent (by rw [← he, hhead])
      rw [vpExtractStructure]
      simp only [hsent, if_false, hh, if_false]
      rw [extractTail_eq]
      cases hf : mt.find? (fun s => decide (s.sType = t)) with
      | none =>
        simp only
        rw [List.filterMap_cons]
        simp only [hf]
        exact ih mt req hft hnd.2
      | some s =>
        simp only
        have hft' : VK_STRUCTURE_TYPE_PHYSICAL_DEVICE_FEATURES_2_KHR ∉
            (mt.eraseP (fun s => decide (s.sType = t))).map VkStruct.sType := by
          intro hmem
          exact hft (((List.eraseP_sublist mt).map VkStruct.sType).subset hmem)
        rw [ih (mt.eraseP (fun s => decide (s.sType = t))) (PushBack req [s]) hft' hnd.2]
        rw [List.filterMap_cons]
        simp only [hf, PushBack]
        rw [filterMap_find?_congr rest
          (fun tg => (mt.eraseP (fun s => decide (s.sType = t))).find?
            (fun s => s.sType = tg))
          (fun tg => mt.find? (fun s => s.sType = tg))
          (fun tg htg => find?_eraseP_of_ne (fun he => hnd.1 (by rw [he]; exact htg)))]
        simp

/-- C6: for every tag list without duplicates, `FeaturesChain::Build` leaves
the required-features chain holding, after its fixed head, exactly those
master-chain structs whose tags appear in the list, in the order the list
gives them (each being the first master-chain match of its tag), with the
features-2 sentinel tag skipped; an empty or sentinel-only list leaves the
chain with no links after the head. -/
theorem Build_extractSubset_spec (mh : VkStruct) (mt : List VkStruct)
    (rh : VkStruct) (requiredList : List Nat)
    (hhead : mh.sType = VK_STRUCTURE_TYPE_PHYSICAL_DEVICE_FEATURES_2_KHR)
    (hft : VK_STRUCTURE_TYPE_PHYSICAL_DEVICE_FEATURES_2_KHR ∉ mt.map VkStruct.sType)
    (hnd : requiredList.Nodup) :
    ((Build requiredList (mh :: mt) [rh]).2 =
        rh :: requiredList.filterMap (fun tg => mt.find? (fun s => s.sType = tg))) ∧
    (Build [] (mh :: mt) [rh]).2 = [rh] ∧
    (Build [VK_STRUCTURE_TYPE_PHYSICAL_DEVICE_FEATURES_2_KHR] (mh :: mt) [rh]).2
        = [rh] := by
  refine ⟨?_, by simp [Build], by simp [Build]⟩
  rw [Build_go_spec requiredList mh mt [rh] hhead hft hnd]
  simp

/-- Witness for C6 at a concrete master chain: the sentinel head followed by
tags 5 and 8; the request list asks for the sentinel (skipped), tag 8 and then
a missing tag 6, producing a required chain holding only the tag-8 struct. -/
theorem Build_extractSubset_spec_witness :
    ((Build [VK_STRUCTURE_TYPE_PHYSICAL_DEVICE_FEATURES_2_KHR, 8, 6]
        [VkStruct.mk VK_STRUCTURE_TYPE_PHYSICAL_DEVICE_FEATURES_2_KHR [],
         VkStruct.mk 5 [0], VkStruct.mk 8 [1]]
        [VkStruct.mk VK_STRUCTURE_TYPE_PHYSICAL_DEVICE_FEATURES_2_KHR []]).2 =
      [VkStruct.mk VK_STRUCTURE_TYPE_PHYSICAL_DEVICE_FEATURES_2_KHR [],
       VkStruct.mk 8 [1]]) := by
  have h := Build_extractSubset_spec
    (VkStruct.mk VK_STRUCTURE_TYPE_PHYSICAL_DEVICE_FEATURES_2_KHR [])
    [VkStruct.mk 5 [0], VkStruct.mk 8 [1]]
    (VkStruct.mk VK_STRUCTURE_TYPE_PHYSICAL_DEVICE_FEATURES_2_KHR [])
    [VK_STRUCTURE_TYPE_PHYSICAL_DEVICE_FEATURES_2_KHR, 8, 6]
    rfl (by decide) (by decide)
  rw [h.1]
  decide

/-- The two robustness opt-out bits of `VpDeviceCreateFlags` tested by
`FeaturesChain::ApplyRobustness`
(VP_DEVICE_CREATE_DISABLE_ROBUST_BUFFER_ACCESS_BIT and
VP_DEVICE_CREATE_DISABLE_ROBUST_IMAGE_ACCESS_BIT), modelled as the two
booleans the code extracts from the flag word. -/
structure VpDeviceCreateFlags where
  disableRobustBufferAccess : Bool
  disableRobustImageAccess : Bool
deriving DecidableEq, Repr

/-- In-place mutation of the first link of matching tag, the way the C++ code
writes through the pointer returned by `vpGetStructure`. -/
def updateFirst (chain : List VkStruct) (type : Nat) (f : VkStruct → VkStruct) :
    List VkStruct :=
  match chain with
  | [] => []
  | s :: rest => if s.sType = type then f s :: rest else s :: updateFirst rest type f

/-- Write VkBool32 value `v` into feature word `i` of a capability struct. -/
def setFlag (i : Nat) (v : Nat) (s : VkStruct) : VkStruct :=
  VkStruct.mk s.sType (s.flags.set i v)

/-- Embedding of `FeaturesChain::ApplyRobustness` (vulkan_profiles.cpp:1444-1480).
Feature-word indices come from the Vulkan struct layouts: `robustBufferAccess`
is word 0 of the `VkPhysicalDeviceFeatures` payload of the features-2 head;
`robustBufferAccess2` and `robustImageAccess2` are words 0 and 1 of
`VkPhysicalDeviceRobustness2FeaturesEXT`; `robustImageAccess` is word 0 of
both `VkPhysicalDeviceImageRobustnessFeaturesEXT` and
`VkPhysicalDeviceVulkan13Features`.  Each block first locates the struct with
`vpGetStructure` and mutates it only when found. -/
def ApplyRobustness (pCreateInfoFlags : VpDeviceCreateFlags)
    (requiredFeaturesChain : List VkStruct) : List VkStruct :=
  let c1 :=
    if pCreateInfoFlags.disableRobustBufferAccess then
      updateFirst requiredFeaturesChain
        VK_STRUCTURE_TYPE_PHYSICAL_DEVICE_FEATURES_2_KHR (setFlag 0 0)
    else requiredFeaturesChain
  let c2 := updateFirst c1 VK_STRUCTURE_TYPE_PHYSICAL_DEVICE_ROBUSTNESS_2_FEATURES_EXT
    (fun s =>
      let s1 := if pCreateInfoFlags.disableRobustBufferAccess then setFlag 0 0 s else s
      if pCreateInfoFlags.disableRobustImageAccess then setFlag 1 0 s1 else s1)
  let c3 :=
    if pCreateInfoFlags.disableRobustImageAccess then
      updateFirst c2 VK_STRUCTURE_TYPE_PHYSICAL_DEVICE_IMAGE_ROBUSTNESS_FEATURES_EXT
        (setFlag 0 0)
    else c2
  if pCreateInfoFlags.disableRobustImageAccess then
    updateFirst c3 VK_STRUCTURE_TYPE_PHYSICAL_DEVICE_VULKAN_1_3_FEATURES (setFlag 0 0)
  else c3

/-- Lookup in the `FeaturesChain::structureSize` map
(vulkan_profiles.cpp:601-607, populated in the constructor): number of
VkBool32 feature words registered for a structure type. -/
def sizeLookup (structureSize : List (Nat × Nat)) (t : Nat) : Option Nat :=
  (structureSize.find? (fun e => e.1 = t)).map (fun e => e.2)

/-- The inner loop of `FeaturesChain::ApplyFeatures`: for each feature-word
index below `count`, `output[index] = (output[index] == VK_TRUE ||
input[index] == VK_TRUE) ? VK_TRUE : VK_FALSE`.  Reading or writing a word
index that lies outside the actual struct payload is undefined behavior in
the C++ and yields `none` here. -/
def orMergeFlags : Nat → List Nat → List Nat → Option (List Nat)
  | 0, output, _ => some output
  | _ + 1, [], _ => none
  | _ + 1, _ :: _, [] => none
  | n + 1, o :: os, i :: inrest =>
    (orMergeFlags n os inrest).map (fun rest => (if o = 1 ∨ i = 1 then 1 else 0) :: rest)

/-- One iteration of the `while (q)` loop of `FeaturesChain::ApplyFeatures`
(vulkan_profiles.cpp:1482-1501) for the requested struct `q`.  The count is
read with `structureSize[q->sType]`: `std::map::operator[]` default-inserts a
zero entry for an absent key, so an unregistered tag gives count 0 and the
flag loop body never executes.  With a positive count, the output struct is
located in the master chain with `vpGetStructure`; dereferencing a null
output pointer is undefined behavior (`none`). -/
def ApplyFeaturesStep (structureSize : List (Nat × Nat)) (chain : List VkStruct)
    (q : VkStruct) : Option (List VkStruct) :=
  let count := (sizeLookup structureSize q.sType).getD 0
  if count = 0 then some chain
  else
    match vpGetStructure chain q.sType with
    | none => none
    | some out =>
      (orMergeFlags count out.flags q.flags).map
        (fun fl => updateFirst chain q.sType (fun s => VkStruct.mk s.sType fl))

/-- The `while (q)` loop of `FeaturesChain::ApplyFeatures` over the caller's
requested chain. -/
def mergeLoop (structureSize : List (Nat × Nat)) (q : List VkStruct)
    (chain : List VkStruct) : Option (List VkStruct) :=
  match q with
  | [] => some chain
  | s :: rest =>
    match ApplyFeaturesStep structureSize chain s with
    | none => none
    | some chain' => mergeLoop structureSize rest chain'

/-- Embedding of `FeaturesChain::ApplyFeatures` (vulkan_profiles.cpp:1482-1501):
OR-merge every struct of the caller's requested chain into the master
required-features chain, then apply the robustness overrides. -/
def ApplyFeatures (structureSize : List (Nat × Nat))
    (createFlags : VpDeviceCreateFlags) (requested chain : List VkStruct) :
    Option (List VkStruct) :=
  (mergeLoop structureSize requested chain).map (ApplyRobustness createFlags)

/-- Success precondition of the merge: every requested struct type has a
registered word count, the count fits inside the requested struct's payload,
and the master chain holds a struct of that type whose payload also covers
the count. -/
def MergeOk (structureSize : List (Nat × Nat)) (requested chain : List VkStruct) :
    Prop :=
  ∀ q ∈ requested,
    (sizeLookup structureSize q.sType).isSome = true ∧
    (sizeLookup structureSize q.sType).getD 0 ≤ q.flags.length ∧
    (vpGetStructure chain q.sType).isSome = true ∧
    (sizeLookup structureSize q.sType).getD 0 ≤
      ((vpGetStructure chain q.sType).getD (VkStruct.mk 0 [])).flags.length

instance (structureSize : List (Nat × Nat)) (requested chain : List VkStruct) :
    Decidable (MergeOk structureSize requested chain) := by
  unfold MergeOk
  infer_instance

/-- Total counterpart of `orMergeFlags`, used to state the result of a merge
that stays in bounds. -/
def orFlags : Nat → List Nat → List Nat → List Nat
  | 0, output, _ => output
  | _ + 1, [], _ => []
  | _ + 1, o :: os, [] => o :: os
  | n + 1, o :: os, i :: inrest =>
    (if o = 1 ∨ i = 1 then 1 else 0) :: orFlags n os inrest

/-- Pointwise description of the final master chain: every struct whose tag is
requested carries the OR of its own flags with the requested flags over the
registered word count. -/
def mergedStruct (structureSize : List (Nat × Nat)) (requested : List VkStruct)
    (s : VkStruct) : VkStruct :=
  match requested.find? (fun q => q.sType = s.sType) with
  | none => s
  | some q =>
    VkStruct.mk s.sType
      (orFlags ((sizeLookup structureSize q.sType).getD 0) s.flags q.flags)

theorem orMergeFlags_eq_some (n : Nat) (output input : List Nat)
    (h1 : n ≤ output.length) (h2 : n ≤ input.length) :
    orMergeFlags n output input = some (orFlags n output input) := by
  induction n generalizing output input with
  | zero => simp [orMergeFlags, orFlags]
  | succ m ih =>
    cases output with
    | nil => simp at h1
    | cons o os =>
      cases input with
      | nil => simp at h2
      | cons i inrest =>
        simp only [orMergeFlags, orFlags]
        rw [ih os inrest (by simpa using h1) (by simpa using h2)]
        rfl

theorem orFlags_length (n : Nat) (output input : List Nat) :
    (orFlags n output input).length = output.length := by
  induction n generalizing output input with
  | zero => simp [orFlags]
  | succ m ih =>
    cases output with
    | nil => simp [orFlags]
    | cons o os =>
      cases input with
      | nil => simp [orFlags]
      | cons i inrest => simp [orFlags, ih]

theorem orFlags_getD_lt (n : Nat) (output input : List Nat) (i : Nat)
    (hi : i < n) (h1 : n ≤ output.length) (h2 : n ≤ input.length) :
    (orFlags n output input).getD i 0 =
      if output.getD i 0 = 1 ∨ input.getD i 0 = 1 then 1 else 0 := by
  induction n generalizing output input i with
  | zero => omega
  | succ m ih =>
    cases output with
    | nil => simp at h1
    | cons o os =>
      cases input with
      | nil => simp at h2
      | cons v inrest =>
        cases i with
        | zero => simp [orFlags]
        | succ j =>
          simp only [orFlags, List.getD_cons_succ]
          exact ih os inrest j (by omega) (by simpa using h1) (by simpa using h2)

theorem orFlags_idem (n : Nat) (output input : List Nat) :
    orFlags n (orFlags n output input) input = orFlags n output input := by
  induction n generalizing output input with
  | zero => simp [orFlags]
  | succ m ih =>
    cases output with
    | nil => simp [orFlags]
    | cons o os =>
      cases input with
      | nil => simp [orFlags]
      | cons v inrest =>
        simp only [orFlags, ih]
        by_cases h : o = 1 ∨ v = 1
        · simp [h]
        · simp [h]
          intro hv
          exact absurd (Or.inr hv) h

theorem map_id_of_mem {l : List VkStruct} {g : VkStruct → VkStruct}
    (h : ∀ x ∈ l, g x = x) : l.map g = l := by
  induction l with
  | nil => simp
  | cons c rest ih =>
    rw [List.map_cons, h c (by simp), ih (fun x hx => h x (List.mem_cons_of_mem c hx))]

theorem map_congr_mem {l : List VkStruct} {g g' : VkStruct → VkStruct}
    (h : ∀ x ∈ l, g x = g' x) : l.map g = l.map g' := by
  induction l with
  | nil => simp
  | cons c rest ih =>
    rw [List.map_cons, List.map_cons, h c (by simp),
      ih (fun x hx => h x (List.mem_cons_of_mem c hx))]

theorem updateFirst_eq_map {l : List VkStruct} {t : Nat} {f : VkStruct → VkStruct}
    (hnd : (l.map VkStruct.sType).Nodup) :
    updateFirst l t f = l.map (fun s => if s.sType = t then f s else s) := by
  induction l with
  | nil => simp [updateFirst]
  | cons c rest ih =>
    simp only [List.map_cons, List.nodup_cons] at hnd
    by_cases hc : c.sType = t
    · rw [updateFirst]
      simp only [hc, if_true, List.map_cons, if_pos rfl]
      have : ∀ x ∈ rest, (if x.sType = t then f x else x) = x := by
        intro x hx
        have hxt : ¬x.sType = t := by
          intro he
          exact hnd.1 (by rw [hc, ← he]; exact List.mem_map_of_mem VkStruct.sType hx)
        simp [hxt]
      rw [map_id_of_mem this]
    · rw [updateFirst]
      simp only [hc, if_false, List.map_cons, ih hnd.2]

theorem map_sType_map (l : List VkStruct) (g : VkStruct → VkStruct)
    (hg : ∀ s, (g s).sType = s.sType) :
    (l.map g).map VkStruct.sType = l.map VkStruct.sType := by
  induction l with
  | nil => simp
  | cons c rest ih => simp [hg, ih]

theorem vpGetStructure_map (l : List VkStruct) (t : Nat) (g : VkStruct → VkStruct)
    (hg : ∀ s, (g s).sType = s.sType) :
    vpGetStructure (l.map g) t = (vpGetStructure l t).map g := by
  induction l with
  | nil => simp [vpGetStructure]
  | cons c rest ih =>
    by_cases hc : c.sType = t
    · rw [List.map_cons, vpGetStructure, vpGetStructure]
      simp [hg, hc]
    · rw [List.map_cons, vpGetStructure, vpGetStructure]
      simp only [hg, hc, if_false]
      exact ih

theorem vpGetStructure_sType {l : List VkStruct} {t : Nat} {s : VkStruct}
    (h : vpGetStructure l t = some s) : s.sType = t := by
  induction l with
  | nil => simp [vpGetStructure] at h
  | cons c rest ih =>
    rw [vpGetStructure] at h
    by_cases hc : c.sType = t
    · simp only [hc, if_true, Option.some.injEq] at h
      rw [← h]; exact hc
    · simp only [hc, if_false] at h
      exact ih h

theorem vpGetStructure_mem {l : List VkStruct} {t : Nat} {s : VkStruct}
    (h : vpGetStructure l t = some s) : s ∈ l := by
  induction l with
  | nil => simp [vpGetStructure] at h
  | cons c rest ih =>
    rw [vpGetStructure] at h
    by_cases hc : c.sType = t
    · simp only [hc, if_true, Option.some.injEq] at h
      rw [← h]; simp
    · simp only [hc, if_false] at h
      exact List.mem_cons_of_mem c (ih h)

theorem vpGetStructure_of_mem_nodup {l : List VkStruct} {s : VkStruct}
    (hnd : (l.map VkStruct.sType).Nodup) (hmem : s ∈ l) :
    vpGetStructure l s.sType = some s := by
  induction l with
  | nil => simp at hmem
  | cons c rest ih =>
    simp only [List.map_cons, List.nodup_cons] at hnd
    rcases List.mem_cons.mp hmem with h | h
    · rw [h, vpGetStructure]
      simp
    · have hcs : ¬c.sType = s.sType := by
        intro he
        exact hnd.1 (by rw [he]; exact List.mem_map_of_mem VkStruct.sType h)
      rw [vpGetStructure]
      simp only [hcs, if_false]
      exact ih hnd.2 h

theorem find?_sType_of_mem_nodup {l : List VkStruct} {q : VkStruct} {v : Nat}
    (hnd : (l.map VkStruct.sType).Nodup) (hmem : q ∈ l) (hq : q.sType = v) :
    l.find? (fun x => x.sType = v) = some q := by
  induction l with
  | nil => simp at hmem
  | cons c rest ih =>
    simp only [List.map_cons, List.nodup_cons] at hnd
    rcases List.mem_cons.mp hmem with h | h
    · rw [h] at hq
      have hstep : List.find? (fun x : VkStruct => decide (x.sType = v)) (c :: rest)
          = some c := by
        simp [List.find?_cons, hq]
      rw [h, hstep]
    · have hcs : ¬c.sType = v := by
        intro he
        exact hnd.1 (by rw [he, ← hq]; exact List.mem_map_of_mem VkStruct.sType h)
      have hstep : List.find? (fun x : VkStruct => decide (x.sType = v)) (c :: rest) =
          List.find? (fun x : VkStruct => decide (x.sType = v)) rest := by
        simp [List.find?_cons, hcs]
      rw [hstep]
      exact ih hnd.2 h

theorem find?_sType_perm {l l2 : List VkStruct} {v : Nat}
    (hnd : (l.map VkStruct.sType).Nodup) (hp : l2.Perm l) :
    l2.find? (fun x => x.sType = v) = l.find? (fun x => x.sType = v) := by
  have hnd2 : (l2.map VkStruct.sType).Nodup := ((hp.map VkStruct.sType).nodup_iff).mpr hnd
  cases hf : l.find? (fun x => x.sType = v) with
  | none =>
    rw [List.find?_eq_none] at hf ⊢
    intro x hx
    exact hf x (hp.mem_iff.mp hx)
  | some q =>
    have hqmem : q ∈ l := List.mem_of_find?_eq_some hf
    have hqv : q.sType = v := by
      have := List.find?_some hf
      simpa using this
    exact find?_sType_of_mem_nodup hnd2 (hp.mem_iff.mpr hqmem) hqv

theorem mergedStruct_sType (structureSize : List (Nat × Nat))
    (requested : List VkStruct) (s : VkStruct) :
    (mergedStruct structureSize requested s).sType = s.sType := by
  rw [mergedStruct]
  cases requested.find? (fun q => q.sType = s.sType) <;> simp

theorem mergedStruct_nil (structureSize : List (Nat × Nat)) (s : VkStruct) :
    mergedStruct structureSize [] s = s := by
  simp [mergedStruct]

theorem mergedStruct_cons_eq (structureSize : List (Nat × Nat)) (q : VkStruct)
    (rest : List VkStruct) (s : VkStruct) (hs : s.sType = q.sType) :
    mergedStruct structureSize (q :: rest) s =
      VkStruct.mk s.sType
        (orFlags ((sizeLookup structureSize q.sType).getD 0) s.flags q.flags) := by
  rw [mergedStruct]
  have hq : q.sType = s.sType := hs.symm
  have hf : List.find? (fun x : VkStruct => decide (x.sType = s.sType)) (q :: rest)
      = some q := by
    simp [List.find?_cons, hq]
  rw [hf]

theorem mergedStruct_cons_ne (structureSize : List (Nat × Nat)) (q : VkStruct)
    (rest : List VkStruct) (s : VkStruct) (hs : ¬s.sType = q.sType) :
    mergedStruct structureSize (q :: rest) s = mergedStruct structureSize rest s := by
  rw [mergedStruct, mergedStruct]
  have hq : ¬q.sType = s.sType := fun he => hs he.symm
  have hf : List.find? (fun x : VkStruct => decide (x.sType = s.sType)) (q :: rest)
      = List.find? (fun x : VkStruct => decide (x.sType = s.sType)) rest := by
    simp [List.find?_cons, hq]
  rw [hf]

theorem mergedStruct_no_match (structureSize : List (Nat × Nat))
    (requested : List VkStruct) (s : VkStruct)
    (h : ∀ x ∈ requested, ¬x.sType = s.sType) :
    mergedStruct structureSize requested s = s := by
  rw [mergedStruct]
  have hf : List.find? (fun x : VkStruct => decide (x.sType = s.sType)) requested
      = none := by
    rw [List.find?_eq_none]
    intro x hx
    simp only [decide_eq_true_eq]
    exact h x hx
  rw [hf]

theorem mergeLoop_eq_map (structureSize : List (Nat × Nat))
    (requested : List VkStruct) :
    ∀ chain : List VkStruct,
    MergeOk structureSize requested chain →
    (requested.map VkStruct.sType).Nodup →
    (chain.map VkStruct.sType).Nodup →
    mergeLoop structureSize requested chain
      = some (chain.map (mergedStruct structureSize requested)) := by
  induction requested with
  | nil =>
    intro chain hok hndr hndc
    rw [mergeLoop]
    rw [map_id_of_mem (fun s _ => mergedStruct_nil structureSize s)]
  | cons q rest ih =>
    intro chain hok hndr hndc
    simp only [List.map_cons, List.nodup_cons] at hndr
    obtain ⟨h1, h2, h3, h4⟩ := hok q (List.mem_cons_self q rest)
    have hrest_ne : ∀ q' ∈ rest, ¬q'.sType = q.sType := by
      intro q' hq' he
      exact hndr.1 (by rw [← he]; exact List.mem_map_of_mem VkStruct.sType hq')
    by_cases hc0 : (sizeLookup structureSize q.sType).getD 0 = 0
    · have hstep : ApplyFeaturesStep structureSize chain q = some chain := by
        rw [ApplyFeaturesStep]
        simp [hc0]
      have hskip : mergeLoop structureSize (q :: rest) chain =
          mergeLoop structureSize rest chain := by
        rw [mergeLoop, hstep]
      rw [hskip]
      rw [ih chain (fun q' hq' => hok q' (List.mem_cons_of_mem q hq')) hndr.2 hndc]
      congr 1
      apply map_congr_mem
      intro s hsmem
      by_cases hs : s.sType = q.sType
      · rw [mergedStruct_cons_eq structureSize q rest s hs, hc0]
        rw [mergedStruct_no_match structureSize rest s
          (fun x hx he => hrest_ne x hx (by rw [he, hs]))]
        rfl
      · rw [mergedStruct_cons_ne structureSize q rest s hs]
    · cases hout : vpGetStructure chain q.sType with
      | none => rw [hout] at h3; simp at h3
      | some out =>
        rw [hout] at h4
        simp only [Option.getD_some] at h4
        have hml := orMergeFlags_eq_some ((sizeLookup structureSize q.sType).getD 0)
          out.flags q.flags h4 h2
        have hstep : ApplyFeaturesStep structureSize chain q =
            some (updateFirst chain q.sType (fun s => VkStruct.mk s.sType
              (orFlags ((sizeLookup structureSize q.sType).getD 0) out.flags q.flags))) := by
          rw [ApplyFeaturesStep]
          simp [hc0, hout, hml]
        have hupd : updateFirst chain q.sType (fun s => VkStruct.mk s.sType
              (orFlags ((sizeLookup structureSize q.sType).getD 0) out.flags q.flags)) =
            chain.map (fun s => if s.sType = q.sType then VkStruct.mk s.sType
              (orFlags ((sizeLookup structureSize q.sType).getD 0) out.flags q.flags)
              else s) :=
          updateFirst_eq_map hndc
        have hstep2 : mergeLoop structureSize (q :: rest) chain =
            mergeLoop structureSize rest
              (chain.map (fun s => if s.sType = q.sType then VkStruct.mk s.sType
                (orFlags ((sizeLookup structureSize q.sType).getD 0) out.flags q.flags)
                else s)) := by
          rw [mergeLoop, hstep, hupd]
        rw [hstep2]
        have hg : ∀ s : VkStruct, ((fun s => if s.sType = q.sType then VkStruct.mk s.sType
            (orFlags ((sizeLookup structureSize q.sType).getD 0) out.flags q.flags)
            else s) s).sType = s.sType := by
          intro s
          by_cases hs : s.sType = q.sType <;> simp [hs]
        have hok1 : MergeOk structureSize rest
            (chain.map (fun s => if s.sType = q.sType then VkStruct.mk s.sType
              (orFlags ((sizeLookup structureSize q.sType).getD 0) out.flags q.flags)
              else s)) := by
          intro q' hq'
          obtain ⟨k1, k2, k3, k4⟩ := hok q' (List.mem_cons_of_mem q hq')
          refine ⟨k1, k2, ?_, ?_⟩
          · rw [vpGetStructure_map _ _ _ hg]
            cases ho : vpGetStructure chain q'.sType with
            | none => rw [ho] at k3; simp at k3
            | some o => rfl
          · rw [vpGetStructure_map _ _ _ hg]
            cases ho : vpGetStructure chain q'.sType with
            | none => rw [ho] at k3; simp at k3
            | some o =>
              rw [ho] at k4
              simp only [Option.getD_some] at k4
              have hos : o.sType = q'.sType := vpGetStructure_sType ho
              have hne : ¬o.sType = q.sType := by
                rw [hos]
                exact hrest_ne q' hq'
              simp only [Option.map_some', Option.getD_some, hne, if_false]
              exact k4
        have hnd1 : ((chain.map (fun s => if s.sType = q.sType then VkStruct.mk s.sType
            (orFlags ((sizeLookup structureSize q.sType).getD 0) out.flags q.flags)
            else s)).map VkStruct.sType).Nodup := by
          rw [map_sType_map _ _ hg]
          exact hndc
        rw [ih _ hok1 hndr.2 hnd1]
        rw [List.map_map]
        congr 1
        apply map_congr_mem
        intro s hsmem
        simp only [Function.comp_apply]
        by_cases hs : s.sType = q.sType
        · rw [if_pos hs]
          have hself : vpGetStructure chain s.sType = some s :=
            vpGetStructure_of_mem_nodup hndc hsmem
          rw [hs] at hself
          have hsout : out = s := by
            have hss := hout.symm.trans hself
            injection hss
          rw [mergedStruct_no_match structureSize rest
            (VkStruct.mk s.sType (orFlags ((sizeLookup structureSize q.sType).getD 0)
              out.flags q.flags))
            (fun x hx he => hrest_ne x hx (by rw [he, hs]))]
          rw [mergedStruct_cons_eq structureSize q rest s hs]
          rw [hsout]
        · rw [if_neg hs]
          rw [mergedStruct_cons_ne structureSize q rest s hs]

theorem updateFirst_id (l : List VkStruct) (t : Nat) :
    updateFirst l t (fun s => s) = l := by
  induction l with
  | nil => rfl
  | cons c rest ih =>
    rw [updateFirst]
    by_cases hc : c.sType = t
    · simp [hc]
    · simp [hc, ih]

theorem ApplyRobustness_no_optout (chain : List VkStruct) :
    ApplyRobustness (VpDeviceCreateFlags.mk false false) chain = chain := by
  rw [ApplyRobustness]
  simp [updateFirst_id]

theorem mergedStruct_flags_length (structureSize : List (Nat × Nat))
    (requested : List VkStruct) (s : VkStruct) :
    (mergedStruct structureSize requested s).flags.length = s.flags.length := by
  rw [mergedStruct]
  cases requested.find? (fun q => q.sType = s.sType) with
  | none => rfl
  | some q => simp [orFlags_length]

/-- C3: with no robustness opt-out bits set, `FeaturesChain::ApplyFeatures`
succeeds on any requested chain whose struct types all carry registered word
counts covered by both payloads, and sets every merged feature word of the
corresponding master-chain struct to VK_TRUE exactly when the master word or
the same-position requested word was VK_TRUE (logical OR); merging the same
requested chain a second time leaves the result unchanged, and any reordering
of the requested chain produces the same final chain. -/
theorem ApplyFeatures_or_merge (structureSize : List (Nat × Nat))
    (createFlags : VpDeviceCreateFlags) (requested chain : List VkStruct)
    (hbuf : createFlags.disableRobustBufferAccess = false)
    (himg : createFlags.disableRobustImageAccess = false)
    (hok : MergeOk structureSize requested chain)
    (hndr : (requested.map VkStruct.sType).Nodup)
    (hndc : (chain.map VkStruct.sType).Nodup) :
    ∃ chain', ApplyFeatures structureSize createFlags requested chain = some chain' ∧
      (∀ q ∈ requested, ∀ c s, sizeLookup structureSize q.sType = some c →
        vpGetStructure chain q.sType = some s →
        ∀ i, i < c →
          (vpGetStructure chain' q.sType).map (fun x => x.flags.getD i 0) =
            some (if s.flags.getD i 0 = 1 ∨ q.flags.getD i 0 = 1 then 1 else 0)) ∧
      ApplyFeatures structureSize createFlags requested chain' = some chain' ∧
      (∀ requested2, requested2.Perm requested →
        ApplyFeatures structureSize createFlags requested2 chain = some chain') := by
  have hflags : createFlags = VpDeviceCreateFlags.mk false false := by
    cases createFlags
    simp_all
  subst hflags
  refine ⟨chain.map (mergedStruct structureSize requested), ?_, ?_, ?_, ?_⟩
  · rw [ApplyFeatures, mergeLoop_eq_map structureSize requested chain hok hndr hndc]
    simp [ApplyRobustness_no_optout]
  · intro q hq c s hc hs i hi
    rw [vpGetStructure_map _ _ _ (mergedStruct_sType structureSize requested)]
    rw [hs]
    have hssT : s.sType = q.sType := vpGetStructure_sType hs
    have hfq : requested.find? (fun x => x.sType = s.sType) = some q :=
      find?_sType_of_mem_nodup hndr hq hssT.symm
    have hms : mergedStruct structureSize requested s =
        VkStruct.mk s.sType
          (orFlags ((sizeLookup structureSize q.sType).getD 0) s.flags q.flags) := by
      rw [mergedStruct, hfq]
    rw [Option.map_some', hms]
    obtain ⟨k1, k2, k3, k4⟩ := hok q hq
    rw [hs] at k4
    simp only [Option.getD_some] at k4
    rw [hc] at k2 k4
    simp only [Option.getD_some] at k2 k4
    have hgd : (sizeLookup structureSize q.sType).getD 0 = c := by
      rw [hc]
      rfl
    rw [hgd]
    show some ((orFlags c s.flags q.flags).getD i 0) = _
    rw [orFlags_getD_lt c s.flags q.flags i hi k4 k2]
  · have hok' : MergeOk structureSize requested
        (chain.map (mergedStruct structureSize requested)) := by
      intro q hq
      obtain ⟨k1, k2, k3, k4⟩ := hok q hq
      refine ⟨k1, k2, ?_, ?_⟩
      · rw [vpGetStructure_map _ _ _ (mergedStruct_sType structureSize requested)]
        cases ho : vpGetStructure chain q.sType with
        | none => rw [ho] at k3; simp at k3
        | some o => rfl
      · rw [vpGetStructure_map _ _ _ (mergedStruct_sType structureSize requested)]
        cases ho : vpGetStructure chain q.sType with
        | none => rw [ho] at k3; simp at k3
        | some o =>
          rw [ho] at k4
          simp only [Option.getD_some] at k4
          simp only [Option.map_some', Option.getD_some,
            mergedStruct_flags_length]
          exact k4
    have hnd' : ((chain.map (mergedStruct structureSize requested)).map
        VkStruct.sType).Nodup := by
      rw [map_sType_map _ _ (mergedStruct_sType structureSize requested)]
      exact hndc
    rw [ApplyFeatures, mergeLoop_eq_map structureSize requested _ hok' hndr hnd']
    simp only [Option.map_some', ApplyRobustness_no_optout, List.map_map]
    congr 1
    apply map_congr_mem
    intro s hsmem
    simp only [Function.comp_apply]
    rw [mergedStruct, mergedStruct_sType]
    cases hf : requested.find? (fun q => q.sType = s.sType) with
    | none => rw [mergedStruct, hf]
    | some q =>
      rw [mergedStruct, hf]
      simp only
      obtain ⟨k1, k2, k3, k4⟩ := hok q (List.mem_of_find?_eq_some hf)
      have hqs : q.sType = s.sType := by
        have := List.find?_some hf
        simpa using this
      have hvs : vpGetStructure chain s.sType = some s :=
        vpGetStructure_of_mem_nodup hndc hsmem
      rw [hqs, hvs] at k4
      simp only [Option.getD_some] at k4
      rw [orFlags_idem]
  · intro requested2 hperm
    have hok2 : MergeOk structureSize requested2 chain := by
      intro q hq
      exact hok q (hperm.mem_iff.mp hq)
    have hnd2 : (requested2.map VkStruct.sType).Nodup :=
      ((hperm.map VkStruct.sType).nodup_iff).mpr hndr
    rw [ApplyFeatures, mergeLoop_eq_map structureSize requested2 chain hok2 hnd2 hndc]
    simp only [Option.map_some', ApplyRobustness_no_optout]
    congr 1
    apply map_congr_mem
    intro s hsmem
    rw [mergedStruct, mergedStruct, find?_sType_perm hndr hperm]

/-- Witness for C3 at a concrete merge: one requested struct of type 5 with
two registered words; the OR of master flags 0,1 with requested flags 1,0
gives 1,1, idempotently and in any order. -/
theorem ApplyFeatures_or_merge_witness :
    MergeOk [(5, 2)] [VkStruct.mk 5 [1, 0]] [VkStruct.mk 5 [0, 1]] ∧
    ∃ chain', ApplyFeatures [(5, 2)] (VpDeviceCreateFlags.mk false false)
        [VkStruct.mk 5 [1, 0]] [VkStruct.mk 5 [0, 1]] = some chain' ∧
      (∀ q ∈ [VkStruct.mk 5 [1, 0]], ∀ c s, sizeLookup [(5, 2)] q.sType = some c →
        vpGetStructure [VkStruct.mk 5 [0, 1]] q.sType = some s →
        ∀ i, i < c →
          (vpGetStructure chain' q.sType).map (fun x => x.flags.getD i 0) =
            some (if s.flags.getD i 0 = 1 ∨ q.flags.getD i 0 = 1 then 1 else 0)) ∧
      ApplyFeatures [(5, 2)] (VpDeviceCreateFlags.mk false false)
        [VkStruct.mk 5 [1, 0]] chain' = some chain' ∧
      (∀ requested2, requested2.Perm [VkStruct.mk 5 [1, 0]] →
        ApplyFeatures [(5, 2)] (VpDeviceCreateFlags.mk false false)
          requested2 [VkStruct.mk 5 [0, 1]] = some chain') :=
  ⟨by decide,
   ApplyFeatures_or_merge [(5, 2)] (VpDeviceCreateFlags.mk false false)
     [VkStruct.mk 5 [1, 0]] [VkStruct.mk 5 [0, 1]] rfl rfl (by decide)
     (by decide) (by decide)⟩

/-- Counterexample to C4 as stated: a requested struct whose tag (here 9) is
absent from the size table does not make the merge undefined.  The C++ reads
the count with `std::map::operator[]`, which default-inserts a zero entry, so
the flag loop body never runs and the merge completes as a well-defined no-op
on the master chain (the claimed undefined behavior does not occur). -/
theorem ApplyFeatures_unregistered_tag_counterexample :
    ApplyFeatures [(5, 1)] (VpDeviceCreateFlags.mk false false)
      [VkStruct.mk 9 [1]] [VkStruct.mk 5 [0]] = some [VkStruct.mk 5 [0]] := by
  decide

/-- C4 amended: if the merge encounters in the requested chain a struct whose
type tag is absent from the size table, the behavior is well defined: the
size lookup produces the map's default-inserted zero count, zero flag
positions are merged, the master chain is left unchanged by that struct, and
no error is reported (there is indeed no declared error path). -/
theorem ApplyFeaturesStep_unregistered_skip (structureSize : List (Nat × Nat))
    (chain : List VkStruct) (q : VkStruct)
    (h : sizeLookup structureSize q.sType = none) :
    ApplyFeaturesStep structureSize chain q = some chain := by
  rw [ApplyFeaturesStep]
  simp [h]

/-- Witness for the amended C4: tag 9 is not registered in the size table, and
the merge step leaves the master chain untouched. -/
theorem ApplyFeaturesStep_unregistered_skip_witness :
    sizeLookup [(5, 1)] (VkStruct.mk 9 [1]).sType = none ∧
    ApplyFeaturesStep [(5, 1)] [VkStruct.mk 5 [0]] (VkStruct.mk 9 [1])
      = some [VkStruct.mk 5 [0]] :=
  ⟨by decide,
   ApplyFeaturesStep_unregistered_skip [(5, 1)] [VkStruct.mk 5 [0]]
     (VkStruct.mk 9 [1]) (by decide)⟩

theorem setFlag_sType (i v : Nat) (s : VkStruct) : (setFlag i v s).sType = s.sType := rfl

theorem vpGetStructure_updateFirst_self (l : List VkStruct) (t : Nat)
    (f : VkStruct → VkStruct) (hf : ∀ s, (f s).sType = s.sType) :
    vpGetStructure (updateFirst l t f) t = (vpGetStructure l t).map f := by
  induction l with
  | nil => rfl
  | cons c rest ih =>
    by_cases hc : c.sType = t
    · rw [updateFirst]
      simp only [hc, if_true]
      rw [vpGetStructure, vpGetStructure]
      simp [hf, hc]
    · rw [updateFirst]
      simp only [hc, if_false]
      rw [vpGetStructure, vpGetStructure]
      simp only [hc, if_false]
      exact ih

theorem vpGetStructure_updateFirst_ne (l : List VkStruct) (t u : Nat)
    (f : VkStruct → VkStruct) (hf : ∀ s, (f s).sType = s.sType) (h : ¬t = u) :
    vpGetStructure (updateFirst l u f) t = vpGetStructure l t := by
  induction l with
  | nil => rfl
  | cons c rest ih =>
    by_cases hc : c.sType = u
    · rw [updateFirst]
      simp only [hc, if_true]
      rw [vpGetStructure, vpGetStructure]
      have hct : ¬c.sType = t := by rw [hc]; exact fun he => h he.symm
      have hft : ¬(f c).sType = t := by rw [hf]; exact hct
      simp only [hft, hct, if_false]
    · rw [updateFirst]
      simp only [hc, if_false]
      rw [vpGetStructure, vpGetStructure]
      by_cases hct : c.sType = t
      · simp only [hct, if_true]
      · simp only [hct, if_false]
        exact ih

theorem getD_set_self (l : List Nat) (i v d : Nat) (h : i < l.length) :
    (l.set i v).getD i d = v := by
  induction l generalizing i with
  | nil => simp at h
  | cons a as ih =>
    cases i with
    | zero => simp
    | succ j =>
      rw [List.set_cons_succ, List.getD_cons_succ]
      exact ih j (by simpa using h)

theorem getD_set_ne (l : List Nat) (i j v d : Nat) (h : ¬j = i) :
    (l.set i v).getD j d = l.getD j d := by
  induction l generalizing i j with
  | nil => simp
  | cons a as ih =>
    cases i with
    | zero =>
      cases j with
      | zero => exact absurd rfl h
      | succ k => simp
    | succ i' =>
      cases j with
      | zero => simp
      | succ k =>
        rw [List.set_cons_succ, List.getD_cons_succ, List.getD_cons_succ]
        exact ih i' k (fun he => h (by rw [he]))


theorem vpGetStructure_updateFirst_setFlag_ne (l : List VkStruct) (t u i v : Nat)
    (h : ¬t = u) :
    vpGetStructure (updateFirst l u (setFlag i v)) t = vpGetStructure l t :=
  vpGetStructure_updateFirst_ne l t u (setFlag i v) (fun _ => rfl) h

theorem vpGetStructure_updateFirst_setFlag_self (l : List VkStruct) (t i v : Nat) :
    vpGetStructure (updateFirst l t (setFlag i v)) t =
      (vpGetStructure l t).map (setFlag i v) :=
  vpGetStructure_updateFirst_self l t (setFlag i v) (fun _ => rfl)

theorem vpGetStructure_updateFirst_setFlag2_ne (l : List VkStruct)
    (t u i v i2 v2 : Nat) (h : ¬t = u) :
    vpGetStructure (updateFirst l u (fun s => setFlag i v (setFlag i2 v2 s))) t =
      vpGetStructure l t :=
  vpGetStructure_updateFirst_ne l t u (fun s => setFlag i v (setFlag i2 v2 s))
    (fun _ => rfl) h

theorem vpGetStructure_updateFirst_setFlag2_self (l : List VkStruct)
    (t i v i2 v2 : Nat) :
    vpGetStructure (updateFirst l t (fun s => setFlag i v (setFlag i2 v2 s))) t =
      (vpGetStructure l t).map (fun s => setFlag i v (setFlag i2 v2 s)) :=
  vpGetStructure_updateFirst_self l t (fun s => setFlag i v (setFlag i2 v2 s))
    (fun _ => rfl)

theorem ApplyRobustness_lookup_features2 (f : VpDeviceCreateFlags) (mid : List VkStruct) :
    vpGetStructure (ApplyRobustness f mid) VK_STRUCTURE_TYPE_PHYSICAL_DEVICE_FEATURES_2_KHR =
      (vpGetStructure mid VK_STRUCTURE_TYPE_PHYSICAL_DEVICE_FEATURES_2_KHR).map
        (fun s => if f.disableRobustBufferAccess then setFlag 0 0 s else s) := by
  have h12 : ¬VK_STRUCTURE_TYPE_PHYSICAL_DEVICE_FEATURES_2_KHR =
      VK_STRUCTURE_TYPE_PHYSICAL_DEVICE_ROBUSTNESS_2_FEATURES_EXT := by decide
  have h13 : ¬VK_STRUCTURE_TYPE_PHYSICAL_DEVICE_FEATURES_2_KHR =
      VK_STRUCTURE_TYPE_PHYSICAL_DEVICE_IMAGE_ROBUSTNESS_FEATURES_EXT := by decide
  have h14 : ¬VK_STRUCTURE_TYPE_PHYSICAL_DEVICE_FEATURES_2_KHR =
      VK_STRUCTURE_TYPE_PHYSICAL_DEVICE_VULKAN_1_3_FEATURES := by decide
  cases hb : f.disableRobustBufferAccess <;> cases hi2 : f.disableRobustImageAccess
  · simp only [ApplyRobustness, hb, hi2, Bool.false_eq_true, if_false]
    rw [updateFirst_id]
    simp
  · simp only [ApplyRobustness, hb, hi2, Bool.false_eq_true, if_false, if_true]
    rw [vpGetStructure_updateFirst_setFlag_ne _ _ _ _ _ h14,
      vpGetStructure_updateFirst_setFlag_ne _ _ _ _ _ h13,
      vpGetStructure_updateFirst_setFlag_ne _ _ _ _ _ h12]
    simp
  · simp only [ApplyRobustness, hb, hi2, Bool.false_eq_true, if_false, if_true]
    rw [vpGetStructure_updateFirst_setFlag_ne _ _ _ _ _ h12,
      vpGetStructure_updateFirst_setFlag_self]
  · simp only [ApplyRobustness, hb, hi2, if_true]
    rw [vpGetStructure_updateFirst_setFlag_ne _ _ _ _ _ h14,
      vpGetStructure_updateFirst_setFlag_ne _ _ _ _ _ h13,
      vpGetStructure_updateFirst_setFlag2_ne _ _ _ _ _ _ _ h12,
      vpGetStructure_updateFirst_setFlag_self]

theorem ApplyRobustness_lookup_robustness2 (f : VpDeviceCreateFlags) (mid : List VkStruct) :
    vpGetStructure (ApplyRobustness f mid)
        VK_STRUCTURE_TYPE_PHYSICAL_DEVICE_ROBUSTNESS_2_FEATURES_EXT =
      (vpGetStructure mid VK_STRUCTURE_TYPE_PHYSICAL_DEVICE_ROBUSTNESS_2_FEATURES_EXT).map
        (fun s =>
          if f.disableRobustImageAccess then
            setFlag 1 0 (if f.disableRobustBufferAccess then setFlag 0 0 s else s)
          else
            (if f.disableRobustBufferAccess then setFlag 0 0 s else s)) := by
  have h21 : ¬VK_STRUCTURE_TYPE_PHYSICAL_DEVICE_ROBUSTNESS_2_FEATURES_EXT =
      VK_STRUCTURE_TYPE_PHYSICAL_DEVICE_FEATURES_2_KHR := by decide
  have h23 : ¬VK_STRUCTURE_TYPE_PHYSICAL_DEVICE_ROBUSTNESS_2_FEATURES_EXT =
      VK_STRUCTURE_TYPE_PHYSICAL_DEVICE_IMAGE_ROBUSTNESS_FEATURES_EXT := by decide
  have h24 : ¬VK_STRUCTURE_TYPE_PHYSICAL_DEVICE_ROBUSTNESS_2_FEATURES_EXT =
      VK_STRUCTURE_TYPE_PHYSICAL_DEVICE_VULKAN_1_3_FEATURES := by decide
  cases hb : f.disableRobustBufferAccess <;> cases hi2 : f.disableRobustImageAccess
  · simp only [ApplyRobustness, hb, hi2, Bool.false_eq_true, if_false]
    rw [updateFirst_id]
    simp
  · simp only [ApplyRobustness, hb, hi2, Bool.false_eq_true, if_false, if_true]
    rw [vpGetStructure_updateFirst_setFlag_ne _ _ _ _ _ h24,
      vpGetStructure_updateFirst_setFlag_ne _ _ _ _ _ h23,
      vpGetStructure_updateFirst_setFlag_self]
  · simp only [ApplyRobustness, hb, hi2, Bool.false_eq_true, if_false, if_true]
    rw [vpGetStructure_updateFirst_setFlag_self]
    rw [vpGetStructure_updateFirst_setFlag_ne _ _ _ _ _ h21]
  · simp only [ApplyRobustness, hb, hi2, if_true]
    rw [vpGetStructure_updateFirst_setFlag_ne _ _ _ _ _ h24,
      vpGetStructure_updateFirst_setFlag_ne _ _ _ _ _ h23,
      vpGetStructure_updateFirst_setFlag2_self]
    rw [vpGetStructure_updateFirst_setFlag_ne _ _ _ _ _ h21]

theorem ApplyRobustness_lookup_image_robustness (f : VpDeviceCreateFlags)
    (mid : List VkStruct) :
    vpGetStructure (ApplyRobustness f mid)
        VK_STRUCTURE_TYPE_PHYSICAL_DEVICE_IMAGE_ROBUSTNESS_FEATURES_EXT =
      (vpGetStructure mid VK_STRUCTURE_TYPE_PHYSICAL_DEVICE_IMAGE_ROBUSTNESS_FEATURES_EXT).map
        (fun s => if f.disableRobustImageAccess then setFlag 0 0 s else s) := by
  have h31 : ¬VK_STRUCTURE_TYPE_PHYSICAL_DEVICE_IMAGE_ROBUSTNESS_FEATURES_EXT =
      VK_STRUCTURE_TYPE_PHYSICAL_DEVICE_FEATURES_2_KHR := by decide
  have h32 : ¬VK_STRUCTURE_TYPE_PHYSICAL_DEVICE_IMAGE_ROBUSTNESS_FEATURES_EXT =
      VK_STRUCTURE_TYPE_PHYSICAL_DEVICE_ROBUSTNESS_2_FEATURES_EXT := by decide
  have h34 : ¬VK_STRUCTURE_TYPE_PHYSICAL_DEVICE_IMAGE_ROBUSTNESS_FEATURES_EXT =
      VK_STRUCTURE_TYPE_PHYSICAL_DEVICE_VULKAN_1_3_FEATURES := by decide
  cases hb : f.disableRobustBufferAccess <;> cases hi2 : f.disableRobustImageAccess
  · simp only [ApplyRobustness, hb, hi2, Bool.false_eq_true, if_false]
    rw [updateFirst_id]
    simp
  · simp only [ApplyRobustness, hb, hi2, Bool.false_eq_true, if_false, if_true]
    rw [vpGetStructure_updateFirst_setFlag_ne _ _ _ _ _ h34,
      vpGetStructure_updateFirst_setFlag_self]
    rw [vpGetStructure_updateFirst_setFlag_ne _ _ _ _ _ h32]
  · simp only [ApplyRobustness, hb, hi2, Bool.false_eq_true, if_false, if_true]
    rw [vpGetStructure_updateFirst_setFlag_ne _ _ _ _ _ h32,
      vpGetStructure_updateFirst_setFlag_ne _ _ _ _ _ h31]
    simp
  · simp only [ApplyRobustness, hb, hi2, if_true]
    rw [vpGetStructure_updateFirst_setFlag_ne _ _ _ _ _ h34,
      vpGetStructure_updateFirst_setFlag_self]
    rw [vpGetStructure_updateFirst_setFlag2_ne _ _ _ _ _ _ _ h32,
      vpGetStructure_updateFirst_setFlag_ne _ _ _ _ _ h31]

theorem ApplyRobustness_lookup_vulkan13 (f : VpDeviceCreateFlags) (mid : List VkStruct) :
    vpGetStructure (ApplyRobustness f mid)
        VK_STRUCTURE_TYPE_PHYSICAL_DEVICE_VULKAN_1_3_FEATURES =
      (vpGetStructure mid VK_STRUCTURE_TYPE_PHYSICAL_DEVICE_VULKAN_1_3_FEATURES).map
        (fun s => if f.disableRobustImageAccess then setFlag 0 0 s else s) := by
  have h41 : ¬VK_STRUCTURE_TYPE_PHYSICAL_DEVICE_VULKAN_1_3_FEATURES =
      VK_STRUCTURE_TYPE_PHYSICAL_DEVICE_FEATURES_2_KHR := by decide
  have h42 : ¬VK_STRUCTURE_TYPE_PHYSICAL_DEVICE_VULKAN_1_3_FEATURES =
      VK_STRUCTURE_TYPE_PHYSICAL_DEVICE_ROBUSTNESS_2_FEATURES_EXT := by decide
  have h43 : ¬VK_STRUCTURE_TYPE_PHYSICAL_DEVICE_VULKAN_1_3_FEATURES =
      VK_STRUCTURE_TYPE_PHYSICAL_DEVICE_IMAGE_ROBUSTNESS_FEATURES_EXT := by decide
  cases hb : f.disableRobustBufferAccess <;> cases hi2 : f.disableRobustImageAccess
  · simp only [ApplyRobustness, hb, hi2, Bool.false_eq_true, if_false]
    rw [updateFirst_id]
    simp
  · simp only [ApplyRobustness, hb, hi2, Bool.false_eq_true, if_false, if_true]
    rw [vpGetStructure_updateFirst_setFlag_self]
    rw [vpGetStructure_updateFirst_setFlag_ne _ _ _ _ _ h43,
      vpGetStructure_updateFirst_setFlag_ne _ _ _ _ _ h42]
  · simp only [ApplyRobustness, hb, hi2, Bool.false_eq_true, if_false, if_true]
    rw [vpGetStructure_updateFirst_setFlag_ne _ _ _ _ _ h42,
      vpGetStructure_updateFirst_setFlag_ne _ _ _ _ _ h41]
    simp
  · simp only [ApplyRobustness, hb, hi2, if_true]
    rw [vpGetStructure_updateFirst_setFlag_self]
    rw [vpGetStructure_updateFirst_setFlag_ne _ _ _ _ _ h43,
      vpGetStructure_updateFirst_setFlag2_ne _ _ _ _ _ _ _ h42,
      vpGetStructure_updateFirst_setFlag_ne _ _ _ _ _ h41]

/-- C5: after the device-creation merge pass (`FeaturesChain::ApplyFeatures`,
which ends by calling `ApplyRobustness`), if the creation flags carry the
robust-buffer-access opt-out then `robustBufferAccess` in the features-2 head
and `robustBufferAccess2` in the robustness-2 struct (when present in the
chain) are VK_FALSE, and if they carry the robust-image-access opt-out then
`robustImageAccess2` in the robustness-2 struct, `robustImageAccess` in the
image-robustness struct and `robustImageAccess` in the Vulkan 1.3 aggregate
struct (when present) are VK_FALSE, regardless of what the OR-merge or the
profile fillers had set them to. -/
theorem ApplyFeatures_robustness_override (structureSize : List (Nat × Nat))
    (createFlags : VpDeviceCreateFlags) (requested chain chain' : List VkStruct)
    (hres : ApplyFeatures structureSize createFlags requested chain = some chain') :
    (createFlags.disableRobustBufferAccess = true →
      (∀ s, vpGetStructure chain' VK_STRUCTURE_TYPE_PHYSICAL_DEVICE_FEATURES_2_KHR
          = some s → 0 < s.flags.length → s.flags.getD 0 1 = 0) ∧
      (∀ s, vpGetStructure chain'
          VK_STRUCTURE_TYPE_PHYSICAL_DEVICE_ROBUSTNESS_2_FEATURES_EXT
          = some s → 0 < s.flags.length → s.flags.getD 0 1 = 0)) ∧
    (createFlags.disableRobustImageAccess = true →
      (∀ s, vpGetStructure chain'
          VK_STRUCTURE_TYPE_PHYSICAL_DEVICE_ROBUSTNESS_2_FEATURES_EXT
          = some s → 1 < s.flags.length → s.flags.getD 1 1 = 0) ∧
      (∀ s, vpGetStructure chain'
          VK_STRUCTURE_TYPE_PHYSICAL_DEVICE_IMAGE_ROBUSTNESS_FEATURES_EXT
          = some s → 0 < s.flags.length → s.flags.getD 0 1 = 0) ∧
      (∀ s, vpGetStructure chain' VK_STRUCTURE_TYPE_PHYSICAL_DEVICE_VULKAN_1_3_FEATURES
          = some s → 0 < s.flags.length → s.flags.getD 0 1 = 0)) := by
  rw [ApplyFeatures] at hres
  cases hml : mergeLoop structureSize requested chain with
  | none => rw [hml] at hres; simp at hres
  | some mid =>
    rw [hml] at hres
    simp only [Option.map_some', Option.some.injEq] at hres
    subst hres
    constructor
    · intro hb
      constructor
      · intro s hs hlen
        rw [ApplyRobustness_lookup_features2] at hs
        cases h0 : vpGetStructure mid VK_STRUCTURE_TYPE_PHYSICAL_DEVICE_FEATURES_2_KHR with
        | none => rw [h0] at hs; simp at hs
        | some s0 =>
          rw [h0] at hs
          simp only [Option.map_some', Option.some.injEq, hb, if_true] at hs
          subst hs
          have hlen' : 0 < s0.flags.length := by
            simpa [setFlag] using hlen
          show (s0.flags.set 0 0).getD 0 1 = 0
          exact getD_set_self s0.flags 0 0 1 hlen'
      · intro s hs hlen
        rw [ApplyRobustness_lookup_robustness2] at hs
        cases h0 : vpGetStructure mid
            VK_STRUCTURE_TYPE_PHYSICAL_DEVICE_ROBUSTNESS_2_FEATURES_EXT with
        | none => rw [h0] at hs; simp at hs
        | some s0 =>
          rw [h0] at hs
          cases hi2 : createFlags.disableRobustImageAccess
          · simp only [Option.map_some', Option.some.injEq, hb, hi2,
              Bool.false_eq_true, if_true, if_false] at hs
            subst hs
            have hlen' : 0 < s0.flags.length := by
              simpa [setFlag] using hlen
            show (s0.flags.set 0 0).getD 0 1 = 0
            exact getD_set_self s0.flags 0 0 1 hlen'
          · simp only [Option.map_some', Option.some.injEq, hb, hi2, if_true] at hs
            subst hs
            have hlen' : 0 < s0.flags.length := by
              simpa [setFlag] using hlen
            show ((s0.flags.set 0 0).set 1 0).getD 0 1 = 0
            rw [getD_set_ne (s0.flags.set 0 0) 1 0 0 1 (by decide)]
            exact getD_set_self s0.flags 0 0 1 hlen'
    · intro hi2
      refine ⟨?_, ?_, ?_⟩
      · intro s hs hlen
        rw [ApplyRobustness_lookup_robustness2] at hs
        cases h0 : vpGetStructure mid
            VK_STRUCTURE_TYPE_PHYSICAL_DEVICE_ROBUSTNESS_2_FEATURES_EXT with
        | none => rw [h0] at hs; simp at hs
        | some s0 =>
          rw [h0] at hs
          cases hb : createFlags.disableRobustBufferAccess
          · simp only [Option.map_some', Option.some.injEq, hb, hi2,
              Bool.false_eq_true, if_true, if_false] at hs
            subst hs
            have hlen' : 1 < s0.flags.length := by
              simpa [setFlag] using hlen
            show (s0.flags.set 1 0).getD 1 1 = 0
            exact getD_set_self s0.flags 1 0 1 hlen'
          · simp only [Option.map_some', Option.some.injEq, hb, hi2, if_true] at hs
            subst hs
            have hlen' : 1 < s0.flags.length := by
              simpa [setFlag] using hlen
            show ((s0.flags.set 0 0).set 1 0).getD 1 1 = 0
            exact getD_set_self (s0.flags.set 0 0) 1 0 1 (by simpa using hlen')
      · intro s hs hlen
        rw [ApplyRobustness_lookup_image_robustness] at hs
        cases h0 : vpGetStructure mid
            VK_STRUCTURE_TYPE_PHYSICAL_DEVICE_IMAGE_ROBUSTNESS_FEATURES_EXT with
        | none => rw [h0] at hs; simp at hs
        | some s0 =>
          rw [h0] at hs
          simp only [Option.map_some', Option.some.injEq, hi2, if_true] at hs
          subst hs
          have hlen' : 0 < s0.flags.length := by
            simpa [setFlag] using hlen
          show (s0.flags.set 0 0).getD 0 1 = 0
          exact getD_set_self s0.flags 0 0 1 hlen'
      · intro s hs hlen
        rw [ApplyRobustness_lookup_vulkan13] at hs
        cases h0 : vpGetStructure mid
            VK_STRUCTURE_TYPE_PHYSICAL_DEVICE_VULKAN_1_3_FEATURES with
        | none => rw [h0] at hs; simp at hs
        | some s0 =>
          rw [h0] at hs
          simp only [Option.map_some', Option.some.injEq, hi2, if_true] at hs
          subst hs
          have hlen' : 0 < s0.flags.length := by
            simpa [setFlag] using hlen
          show (s0.flags.set 0 0).getD 0 1 = 0
          exact getD_set_self s0.flags 0 0 1 hlen'

/-- Witness for C5 at a concrete chain holding all four robustness-related
structs with every flag VK_TRUE, with both opt-out bits set: after the merge
pass every targeted flag reads VK_FALSE. -/
theorem ApplyFeatures_robustness_override_witness :
    (ApplyFeatures [] (VpDeviceCreateFlags.mk true true) []
        [VkStruct.mk VK_STRUCTURE_TYPE_PHYSICAL_DEVICE_FEATURES_2_KHR [1],
         VkStruct.mk VK_STRUCTURE_TYPE_PHYSICAL_DEVICE_ROBUSTNESS_2_FEATURES_EXT [1, 1],
         VkStruct.mk VK_STRUCTURE_TYPE_PHYSICAL_DEVICE_IMAGE_ROBUSTNESS_FEATURES_EXT [1],
         VkStruct.mk VK_STRUCTURE_TYPE_PHYSICAL_DEVICE_VULKAN_1_3_FEATURES [1]] =
      some
        [VkStruct.mk VK_STRUCTURE_TYPE_PHYSICAL_DEVICE_FEATURES_2_KHR [0],
         VkStruct.mk VK_STRUCTURE_TYPE_PHYSICAL_DEVICE_ROBUSTNESS_2_FEATURES_EXT [0, 0],
         VkStruct.mk VK_STRUCTURE_TYPE_PHYSICAL_DEVICE_IMAGE_ROBUSTNESS_FEATURES_EXT [0],
         VkStruct.mk VK_STRUCTURE_TYPE_PHYSICAL_DEVICE_VULKAN_1_3_FEATURES [0]]) ∧
    (((VpDeviceCreateFlags.mk true true).disableRobustBufferAccess = true →
      (∀ s, vpGetStructure
          [VkStruct.mk VK_STRUCTURE_TYPE_PHYSICAL_DEVICE_FEATURES_2_KHR [0],
           VkStruct.mk VK_STRUCTURE_TYPE_PHYSICAL_DEVICE_ROBUSTNESS_2_FEATURES_EXT [0, 0],
           VkStruct.mk VK_STRUCTURE_TYPE_PHYSICAL_DEVICE_IMAGE_ROBUSTNESS_FEATURES_EXT [0],
           VkStruct.mk VK_STRUCTURE_TYPE_PHYSICAL_DEVICE_VULKAN_1_3_FEATURES [0]]
          VK_STRUCTURE_TYPE_PHYSICAL_DEVICE_FEATURES_2_KHR
          = some s → 0 < s.flags.length → s.flags.getD 0 1 = 0) ∧
      (∀ s, vpGetStructure
          [VkStruct.mk VK_STRUCTURE_TYPE_PHYSICAL_DEVICE_FEATURES_2_KHR [0],
           VkStruct.mk VK_STRUCTURE_TYPE_PHYSICAL_DEVICE_ROBUSTNESS_2_FEATURES_EXT [0, 0],
           VkStruct.mk VK_STRUCTURE_TYPE_PHYSICAL_DEVICE_IMAGE_ROBUSTNESS_FEATURES_EXT [0],
           VkStruct.mk VK_STRUCTURE_TYPE_PHYSICAL_DEVICE_VULKAN_1_3_FEATURES [0]]
          VK_STRUCTURE_TYPE_PHYSICAL_DEVICE_ROBUSTNESS_2_FEATURES_EXT
          = some s → 0 < s.flags.length → s.flags.getD 0 1 = 0)) ∧
    ((VpDeviceCreateFlags.mk true true).disableRobustImageAccess = true →
      (∀ s, vpGetStructure
          [VkStruct.mk VK_STRUCTURE_TYPE_PHYSICAL_DEVICE_FEATURES_2_KHR [0],
           VkStruct.mk VK_STRUCTURE_TYPE_PHYSICAL_DEVICE_ROBUSTNESS_2_FEATURES_EXT [0, 0],
           VkStruct.mk VK_STRUCTURE_TYPE_PHYSICAL_DEVICE_IMAGE_ROBUSTNESS_FEATURES_EXT [0],
           VkStruct.mk VK_STRUCTURE_TYPE_PHYSICAL_DEVICE_VULKAN_1_3_FEATURES [0]]
          VK_STRUCTURE_TYPE_PHYSICAL_DEVICE_ROBUSTNESS_2_FEATURES_EXT
          = some s → 1 < s.flags.length → s.flags.getD 1 1 = 0) ∧
      (∀ s, vpGetStructure
          [VkStruct.mk VK_STRUCTURE_TYPE_PHYSICAL_DEVICE_FEATURES_2_KHR [0],
           VkStruct.mk VK_STRUCTURE_TYPE_PHYSICAL_DEVICE_ROBUSTNESS_2_FEATURES_EXT [0, 0],
           VkStruct.mk VK_STRUCTURE_TYPE_PHYSICAL_DEVICE_IMAGE_ROBUSTNESS_FEATURES_EXT [0],
           VkStruct.mk VK_STRUCTURE_TYPE_PHYSICAL_DEVICE_VULKAN_1_3_FEATURES [0]]
          VK_STRUCTURE_TYPE_PHYSICAL_DEVICE_IMAGE_ROBUSTNESS_FEATURES_EXT
          = some s → 0 < s.flags.length → s.flags.getD 0 1 = 0) ∧
      (∀ s, vpGetStructure
          [VkStruct.mk VK_STRUCTURE_TYPE_PHYSICAL_DEVICE_FEATURES_2_KHR [0],
           VkStruct.mk VK_STRUCTURE_TYPE_PHYSICAL_DEVICE_ROBUSTNESS_2_FEATURES_EXT [0, 0],
           VkStruct.mk VK_STRUCTURE_TYPE_PHYSICAL_DEVICE_IMAGE_ROBUSTNESS_FEATURES_EXT [0],
           VkStruct.mk VK_STRUCTURE_TYPE_PHYSICAL_DEVICE_VULKAN_1_3_FEATURES [0]]
          VK_STRUCTURE_TYPE_PHYSICAL_DEVICE_VULKAN_1_3_FEATURES
          = some s → 0 < s.flags.length → s.flags.getD 0 1 = 0))) :=
  ⟨by decide,
   ApplyFeatures_robustness_override [] (VpDeviceCreateFlags.mk true true) []
     [VkStruct.mk VK_STRUCTURE_TYPE_PHYSICAL_DEVICE_FEATURES_2_KHR [1],
      VkStruct.mk VK_STRUCTURE_TYPE_PHYSICAL_DEVICE_ROBUSTNESS_2_FEATURES_EXT [1, 1],
      VkStruct.mk VK_STRUCTURE_TYPE_PHYSICAL_DEVICE_IMAGE_ROBUSTNESS_FEATURES_EXT [1],
      VkStruct.mk VK_STRUCTURE_TYPE_PHYSICAL_DEVICE_VULKAN_1_3_FEATURES [1]]
     [VkStruct.mk VK_STRUCTURE_TYPE_PHYSICAL_DEVICE_FEATURES_2_KHR [0],
      VkStruct.mk VK_STRUCTURE_TYPE_PHYSICAL_DEVICE_ROBUSTNESS_2_FEATURES_EXT [0, 0],
      VkStruct.mk VK_STRUCTURE_TYPE_PHYSICAL_DEVICE_IMAGE_ROBUSTNESS_FEATURES_EXT [0],
      VkStruct.mk VK_STRUCTURE_TYPE_PHYSICAL_DEVICE_VULKAN_1_3_FEATURES [0]]
     (by decide)⟩

/-- Caller-facing profile identity (`VpProfileProperties`): name and spec
version.  The fixed-size name buffer compared with `strncmp` is modelled as a
`Nat` identifier. -/
structure VpProfileProperties where
  profileName : Nat
  specVersion : Nat
deriving DecidableEq, Repr

/-- `VkExtensionProperties`: extension name (identifier) and spec version.
All extension comparisons in the source use `strcmp` on the name only. -/
structure VkExtensionProperties where
  extensionName : Nat
  specVersion : Nat
deriving DecidableEq, Repr

/-- `VpBlockProperties`: the diagnostic record pushed into the supported and
unsupported block lists.  Aggregate initialization zero-fills the block name,
modelled as identifier 0 (the empty string). -/
structure VpBlockProperties where
  profiles : VpProfileProperties
  apiVersion : Nat
  blockName : Nat
deriving DecidableEq, Repr

/-- `detail::VpVariantDesc`, restricted to what the support queries consume.
The feature/property/format comparator machinery (chainer builds a struct
chain, the device query fills it, and the variant's comparator is invoked on
every link) is modelled by the lists of comparator outcomes on the
device-filled chain: `featureChecks` and `propertyChecks` hold one boolean
per chain link, and `formatChecks` holds one list per format entry of the
variant. -/
structure VpVariantDesc where
  blockName : Nat
  instanceExtensions : List VkExtensionProperties
  deviceExtensions : List VkExtensionProperties
  featureChecks : List Bool
  propertyChecks : List Bool
  formatChecks : List (List Bool)
deriving DecidableEq, Repr

/-- `detail::VpCapabilitiesDesc`: the variants of one capability set. -/
structure VpCapabilitiesDesc where
  variants : List VpVariantDesc
deriving DecidableEq, Repr

/-- `detail::VpProfileDesc`, restricted to the fields the support queries
read. -/
structure VpProfileDesc where
  props : VpProfileProperties
  minApiVersion : Nat
  requiredProfiles : List VpProfileProperties
  requiredCapabilities : List VpCapabilitiesDesc
deriving DecidableEq, Repr

/-- Embedding of `detail::CheckExtension` (vulkan_profiles.cpp:1572-1583):
linear scan for an extension name among the supported properties. -/
def CheckExtension (supportedProperties : List VkExtensionProperties)
    (requestedExtension : Nat) : Bool :=
  supportedProperties.any (fun e => e.extensionName = requestedExtension)

/-- Embedding of `detail::vpCheckVersion` (vulkan_profiles.cpp:1554-1560),
with VK_API_VERSION_MAJOR (bits 22-28) and VK_API_VERSION_MINOR (bits
12-21). -/
def vpCheckVersion (actual expected : Nat) : Bool :=
  let actualMajor := (actual >>> 22) % 128
  let actualMinor := (actual >>> 12) % 1024
  let expectedMajor := (expected >>> 22) % 128
  let expectedMinor := (expected >>> 12) % 1024
  decide (actualMajor > expectedMajor) ||
    (decide (actualMajor = expectedMajor) && decide (actualMinor ≥ expectedMinor))

/-- Embedding of `detail::vpGetProfileDesc` (vulkan_profiles.cpp:1528-1535):
look the profile up by name in the static profile table (passed explicitly
here). -/
def vpGetProfileDesc (profiles : List VpProfileDesc) (profileName : Nat) :
    Option VpProfileDesc :=
  profiles.find? (fun d => d.props.profileName = profileName)

/-- Embedding of `detail::GatherProfiles` (vulkan_profiles.cpp:1537-1552) with
`pBlockName == nullptr`: the profile's required profiles followed by the
profile itself. -/
def GatherProfiles (profiles : List VpProfileDesc)
    (profile : VpProfileProperties) : List VpProfileProperties :=
  (match vpGetProfileDesc profiles profile.profileName with
   | some desc => desc.requiredProfiles
   | none => []) ++ [profile]

/-- The `memcpy(block.blockName, variant.blockName, ...)` step. -/
def setBlockName (block : VpBlockProperties) (blockName : Nat) : VpBlockProperties :=
  VpBlockProperties.mk block.profiles block.apiVersion blockName

/-- The per-format loop of `vpGetPhysicalDeviceProfileVariantsSupport`
(vulkan_profiles.cpp:2612-2635): iterates the variant's format entries while
`supported_variant` stays true, clearing it on any failed comparator. -/
def formatLoop : List (List Bool) → Bool → Bool
  | [], supported_variant => supported_variant
  | checks :: rest, supported_variant =>
    if supported_variant then
      formatLoop rest
        (if checks.all (fun b => b) then supported_variant else false)
    else supported_variant

/-- The per-variant body of `vpGetPhysicalDeviceProfileVariantsSupport`
(vulkan_profiles.cpp:2554-2635): device-extension scan, then the feature,
property and format comparator walks, each clearing `supported_variant` on
failure. -/
def deviceVariantSupported (supportedDeviceExtensions : List VkExtensionProperties)
    (variant : VpVariantDesc) : Bool :=
  let s1 := variant.deviceExtensions.foldl
    (fun sv e =>
      if CheckExtension supportedDeviceExtensions e.extensionName then sv else false)
    true
  let s2 := if variant.featureChecks.all (fun b => b) then s1 else false
  let s3 := if variant.propertyChecks.all (fun b => b) then s2 else false
  formatLoop variant.formatChecks s3

/-- The per-capability-set variant loop of
`vpGetPhysicalDeviceProfileVariantsSupport` (vulkan_profiles.cpp:2554-2645):
record the block for each variant, break after the first supported one.
Returns (supported_block, supported blocks pushed, unsupported blocks
pushed). -/
def deviceCapSet (supportedDeviceExtensions : List VkExtensionProperties)
    (block : VpBlockProperties) :
    List VpVariantDesc → Bool × List VpBlockProperties × List VpBlockProperties
  | [] => (false, [], [])
  | v :: rest =>
    if deviceVariantSupported supportedDeviceExtensions v then
      (true, [setBlockName block v.blockName], [])
    else
      let r := deviceCapSet supportedDeviceExtensions block rest
      (r.1, r.2.1, setBlockName block v.blockName :: r.2.2)

/-- The per-profile body of `vpGetPhysicalDeviceProfileVariantsSupport`
(vulkan_profiles.cpp:2525-2655): spec-version gate, device API version gate,
then all required capability sets; blocks from every set are accumulated.
`none` models the VK_ERROR_UNKNOWN return for an unknown profile name. -/
def deviceProfileEval (profiles : List VpProfileDesc) (deviceApiVersion : Nat)
    (supportedDeviceExtensions : List VkExtensionProperties)
    (gp : VpProfileProperties) :
    Option (Bool × List VpBlockProperties × List VpBlockProperties) :=
  match vpGetProfileDesc profiles gp.profileName with
  | none => none
  | some desc =>
    let block := VpBlockProperties.mk gp desc.minApiVersion 0
    let r := desc.requiredCapabilities.foldl
      (fun acc cs =>
        let rc := deviceCapSet supportedDeviceExtensions block cs.variants
        (acc.1 && rc.1, acc.2.1 ++ rc.2.1, acc.2.2 ++ rc.2.2))
      (true, [], [])
    some (decide (¬desc.props.specVersion < gp.specVersion) &&
            vpCheckVersion deviceApiVersion desc.minApiVersion && r.1,
          r.2.1, r.2.2)

/-- The gathered-profiles loop of `vpGetPhysicalDeviceProfileVariantsSupport`:
every gathered profile must be known, and overall support is the conjunction
over gathered profiles. -/
def deviceGatherLoop (profiles : List VpProfileDesc) (deviceApiVersion : Nat)
    (supportedDeviceExtensions : List VkExtensionProperties) :
    List VpProfileProperties →
    Bool × List VpBlockProperties × List VpBlockProperties →
    Option (Bool × List VpBlockProperties × List VpBlockProperties)
  | [], acc => some acc
  | gp :: rest, acc =>
    match deviceProfileEval profiles deviceApiVersion supportedDeviceExtensions gp with
    | none => none
    | some r =>
      deviceGatherLoop profiles deviceApiVersion supportedDeviceExtensions rest
        (acc.1 && r.1, acc.2.1 ++ r.2.1, acc.2.2 ++ r.2.2)

/-- Embedding of the core of `vpGetPhysicalDeviceProfileVariantsSupport`
(vulkan_profiles.cpp:2417-2674), after the extension enumeration and entry
point loading: check the requested profile is known, then evaluate every
gathered profile against the device (its reported API version, its device
extension list, and the comparator outcomes recorded in the variant
descriptors). -/
def vpGetPhysicalDeviceProfileVariantsSupport (profiles : List VpProfileDesc)
    (deviceApiVersion : Nat)
    (supportedDeviceExtensions : List VkExtensionProperties)
    (profile : VpProfileProperties) :
    Option (Bool × List VpBlockProperties × List VpBlockProperties) :=
  match vpGetProfileDesc profiles profile.profileName with
  | none => none
  | some _ =>
    deviceGatherLoop profiles deviceApiVersion supportedDeviceExtensions
      (GatherProfiles profiles profile) (true, [], [])

/-- The in/out state of `vpGetInstanceProfileSupportSingleProfile`: the
caller's `*pSupported` plus the two block vectors passed by reference. -/
structure SingleProfileState where
  supported : Bool
  supportedBlocks : List VpBlockProperties
  unsupportedBlocks : List VpBlockProperties
deriving DecidableEq, Repr

/-- The instance-extension scan of one variant
(vulkan_profiles.cpp:1663-1670): for each required instance extension missing
from the supported list, clear `supported_variant` and push an unsupported
block carrying the variant's block name. -/
def instVariantCheck (supported_extensions : List VkExtensionProperties)
    (block : VpBlockProperties) (variant : VpVariantDesc) :
    Bool × List VpBlockProperties :=
  variant.instanceExtensions.foldl
    (fun acc e =>
      if CheckExtension supported_extensions e.extensionName then acc
      else (false, acc.2 ++ [setBlockName block variant.blockName]))
    (true, [])

/-- The variant loop of one capability set in
`vpGetInstanceProfileSupportSingleProfile` (vulkan_profiles.cpp:1659-1677).
Unlike the device path there is no break: every variant is scanned, each
supported one pushes a supported block, and each missing extension pushes an
unsupported block. -/
def instCapSet (supported_extensions : List VkExtensionProperties)
    (block : VpBlockProperties) :
    List VpVariantDesc → Bool × List VpBlockProperties × List VpBlockProperties
  | [] => (false, [], [])
  | v :: rest =>
    let rv := instVariantCheck supported_extensions block v
    let rr := instCapSet supported_extensions block rest
    if rv.1 then
      (true, setBlockName block v.blockName :: rr.2.1, rv.2 ++ rr.2.2)
    else (rr.1, rr.2.1, rv.2 ++ rr.2.2)

/-- The capability-set loop of `vpGetInstanceProfileSupportSingleProfile`
(vulkan_profiles.cpp:1655-1683): a set with no supported variant clears
`*pSupported` and returns VK_SUCCESS immediately. -/
def instCapsLoop (supported_extensions : List VkExtensionProperties)
    (block : VpBlockProperties) :
    List VpCapabilitiesDesc → SingleProfileState → SingleProfileState
  | [], st => st
  | cs :: rest, st =>
    let rc := instCapSet supported_extensions block cs.variants
    let st1 := SingleProfileState.mk st.supported
      (st.supportedBlocks ++ rc.2.1) (st.unsupportedBlocks ++ rc.2.2)
    if rc.1 then instCapsLoop supported_extensions block rest st1
    else SingleProfileState.mk false st1.supportedBlocks st1.unsupportedBlocks

/-- Embedding of `detail::vpGetInstanceProfileSupportSingleProfile`
(vulkan_profiles.cpp:1624-1686).  `none` models the VK_ERROR_UNKNOWN return
for an unknown profile name (which also clears `*pSupported`); otherwise the
two version gates run (each clearing `*pSupported` and recording a diagnostic
block with empty block name), followed by the capability-set loop. -/
def vpGetInstanceProfileSupportSingleProfile (profiles : List VpProfileDesc)
    (api_version : Nat) (supported_extensions : List VkExtensionProperties)
    (profile : VpProfileProperties) (st : SingleProfileState) :
    Option SingleProfileState :=
  match vpGetProfileDesc profiles profile.profileName with
  | none => none
  | some desc =>
    let block := VpBlockProperties.mk profile api_version 0
    let st1 :=
      if desc.props.specVersion < profile.specVersion then
        SingleProfileState.mk false st.supportedBlocks
          (st.unsupportedBlocks ++ [block])
      else st
    let st2 :=
      if api_version ≠ 0 ∧ vpCheckVersion api_version desc.minApiVersion = false then
        SingleProfileState.mk false st1.supportedBlocks
          (st1.unsupportedBlocks ++ [block])
      else st1
    some (instCapsLoop supported_extensions block desc.requiredCapabilities st2)

theorem extScanFold_eq (p : VkExtensionProperties → Bool)
    (l : List VkExtensionProperties) :
    ∀ b : Bool, l.foldl (fun sv e => if p e then sv else false) b = (b && l.all p) := by
  induction l with
  | nil => intro b; simp
  | cons e rest ih =>
    intro b
    rw [List.foldl_cons, List.all_cons]
    by_cases hp : p e = true
    · rw [if_pos hp, ih b, hp]
      simp
    · rw [if_neg hp, ih false]
      simp [Bool.eq_false_iff.mpr hp]

theorem formatLoop_eq (checks : List (List Bool)) :
    ∀ sv : Bool, formatLoop checks sv = (sv && checks.all (fun c => c.all (fun b => b))) := by
  induction checks with
  | nil => intro sv; simp [formatLoop]
  | cons c rest ih =>
    intro sv
    cases sv with
    | false => simp [formatLoop]
    | true =>
      rw [formatLoop]
      simp only [if_true]
      by_cases hc : c.all (fun b => b) = true
      · rw [if_pos hc, ih true, List.all_cons, hc]
        simp
      · rw [if_neg hc, ih false, List.all_cons]
        simp [Bool.eq_false_iff.mpr hc]

theorem deviceVariantSupported_eq (supportedDeviceExtensions : List VkExtensionProperties)
    (variant : VpVariantDesc) :
    deviceVariantSupported supportedDeviceExtensions variant =
      (variant.deviceExtensions.all
          (fun e => CheckExtension supportedDeviceExtensions e.extensionName) &&
        variant.featureChecks.all (fun b => b) &&
        variant.propertyChecks.all (fun b => b) &&
        variant.formatChecks.all (fun c => c.all (fun b => b))) := by
  rw [deviceVariantSupported]
  rw [extScanFold_eq (fun e => CheckExtension supportedDeviceExtensions e.extensionName)
    variant.deviceExtensions true]
  rw [formatLoop_eq]
  by_cases hf : variant.featureChecks.all (fun b => b) = true
  · rw [if_pos hf, hf]
    by_cases hp : variant.propertyChecks.all (fun b => b) = true
    · rw [if_pos hp, hp]
      simp [Bool.and_assoc, Bool.and_comm, Bool.and_left_comm]
    · rw [if_neg hp]
      simp [Bool.eq_false_iff.mpr hp]
  · rw [if_neg hf]
    simp [Bool.eq_false_iff.mpr hf]

theorem deviceCapSet_fst (supportedDeviceExtensions : List VkExtensionProperties)
    (block : VpBlockProperties) (vs : List VpVariantDesc) :
    (deviceCapSet supportedDeviceExtensions block vs).1 =
      vs.any (deviceVariantSupported supportedDeviceExtensions) := by
  induction vs with
  | nil => simp [deviceCapSet]
  | cons v rest ih =>
    rw [deviceCapSet, List.any_cons]
    by_cases hv : deviceVariantSupported supportedDeviceExtensions v = true
    · rw [if_pos hv, hv]
      simp
    · rw [if_neg hv]
      simp only [ih]
      simp [Bool.eq_false_iff.mpr hv]

theorem deviceCapsFold_fst (supportedDeviceExtensions : List VkExtensionProperties)
    (block : VpBlockProperties) (css : List VpCapabilitiesDesc) :
    ∀ (b : Bool) (sb ub : List VpBlockProperties),
    (css.foldl
      (fun acc cs =>
        let rc := deviceCapSet supportedDeviceExtensions block cs.variants
        (acc.1 && rc.1, acc.2.1 ++ rc.2.1, acc.2.2 ++ rc.2.2))
      (b, sb, ub)).1 =
      (b && css.all (fun cs => (deviceCapSet supportedDeviceExtensions block cs.variants).1)) := by
  induction css with
  | nil => intro b sb ub; simp
  | cons cs rest ih =>
    intro b sb ub
    rw [List.foldl_cons, List.all_cons]
    rw [ih]
    simp [Bool.and_assoc]

theorem deviceProfileEval_fst (profiles : List VpProfileDesc) (deviceApiVersion : Nat)
    (supportedDeviceExtensions : List VkExtensionProperties)
    (gp : VpProfileProperties) (desc : VpProfileDesc)
    (hd : vpGetProfileDesc profiles gp.profileName = some desc) :
    (deviceProfileEval profiles deviceApiVersion supportedDeviceExtensions gp).map
        (fun r => r.1) =
      some (decide (¬desc.props.specVersion < gp.specVersion) &&
        vpCheckVersion deviceApiVersion desc.minApiVersion &&
        desc.requiredCapabilities.all
          (fun cs => (deviceCapSet supportedDeviceExtensions
            (VpBlockProperties.mk gp desc.minApiVersion 0) cs.variants).1)) := by
  rw [deviceProfileEval, hd]
  simp only [Option.map_some', Option.some.injEq]
  rw [deviceCapsFold_fst]
  simp [Bool.and_assoc]

theorem deviceGatherLoop_fst (profiles : List VpProfileDesc) (deviceApiVersion : Nat)
    (supportedDeviceExtensions : List VkExtensionProperties)
    (gps : List VpProfileProperties) :
    ∀ (acc : Bool × List VpBlockProperties × List VpBlockProperties) out,
    deviceGatherLoop profiles deviceApiVersion supportedDeviceExtensions gps acc
        = some out →
    out.1 = (acc.1 && gps.all (fun gp =>
        ((deviceProfileEval profiles deviceApiVersion supportedDeviceExtensions gp).map
          (fun r => r.1)).getD false)) ∧
    ∀ gp ∈ gps,
      (deviceProfileEval profiles deviceApiVersion supportedDeviceExtensions gp).isSome
        = true := by
  induction gps with
  | nil =>
    intro acc out h
    rw [deviceGatherLoop] at h
    injection h with h
    subst h
    simp
  | cons gp rest ih =>
    intro acc out h
    rw [deviceGatherLoop] at h
    cases he : deviceProfileEval profiles deviceApiVersion supportedDeviceExtensions gp with
    | none => rw [he] at h; exact absurd h (by simp)
    | some r =>
      rw [he] at h
      obtain ⟨h1, h2⟩ := ih _ out h
      constructor
      · rw [h1, List.all_cons, he]
        simp [Bool.and_assoc]
      · intro gp2 hgp2
        rcases List.mem_cons.mp hgp2 with hq | hq
        · rw [hq, he]; rfl
        · exact h2 gp2 hq

theorem instExtFold_fst (p : VkExtensionProperties → Bool) (blk : VpBlockProperties)
    (l : List VkExtensionProperties) :
    ∀ (b : Bool) (ub : List VpBlockProperties),
    (l.foldl (fun acc e => if p e then acc else (false, acc.2 ++ [blk])) (b, ub)).1 =
      (b && l.all p) := by
  induction l with
  | nil => intro b ub; simp
  | cons e rest ih =>
    intro b ub
    rw [List.foldl_cons, List.all_cons]
    by_cases hp : p e = true
    · rw [if_pos hp, ih b ub, hp]
      simp
    · rw [if_neg hp, ih false]
      simp [Bool.eq_false_iff.mpr hp]

theorem instVariantCheck_fst (supported_extensions : List VkExtensionProperties)
    (block : VpBlockProperties) (variant : VpVariantDesc) :
    (instVariantCheck supported_extensions block variant).1 =
      variant.instanceExtensions.all
        (fun e => CheckExtension supported_extensions e.extensionName) := by
  rw [instVariantCheck]
  rw [instExtFold_fst (fun e => CheckExtension supported_extensions e.extensionName)
    (setBlockName block variant.blockName) variant.instanceExtensions true []]
  simp

theorem instCapSet_fst (supported_extensions : List VkExtensionProperties)
    (block : VpBlockProperties) (vs : List VpVariantDesc) :
    (instCapSet supported_extensions block vs).1 =
      vs.any (fun v => (instVariantCheck supported_extensions block v).1) := by
  induction vs with
  | nil => simp [instCapSet]
  | cons v rest ih =>
    rw [instCapSet, List.any_cons]
    by_cases hv : (instVariantCheck supported_extensions block v).1 = true
    · rw [if_pos hv, hv]
      simp
    · rw [if_neg hv]
      simp only [ih]
      simp [Bool.eq_false_iff.mpr hv]

theorem instCapsLoop_supported (supported_extensions : List VkExtensionProperties)
    (block : VpBlockProperties) (css : List VpCapabilitiesDesc) :
    ∀ st : SingleProfileState,
    (instCapsLoop supported_extensions block css st).supported =
      (st.supported && css.all
        (fun cs => (instCapSet supported_extensions block cs.variants).1)) := by
  induction css with
  | nil => intro st; simp [instCapsLoop]
  | cons cs rest ih =>
    intro st
    rw [instCapsLoop, List.all_cons]
    by_cases hc : (instCapSet supported_extensions block cs.variants).1 = true
    · rw [if_pos hc, ih, hc]
      simp
    · rw [if_neg hc]
      simp [Bool.eq_false_iff.mpr hc]

theorem instCapsLoop_unsupported_mono (supported_extensions : List VkExtensionProperties)
    (block : VpBlockProperties) (css : List VpCapabilitiesDesc) :
    ∀ (st : SingleProfileState) (b : VpBlockProperties),
    b ∈ st.unsupportedBlocks →
    b ∈ (instCapsLoop supported_extensions block css st).unsupportedBlocks := by
  induction css with
  | nil => intro st b hb; exact hb
  | cons cs rest ih =>
    intro st b hb
    rw [instCapsLoop]
    by_cases hc : (instCapSet supported_extensions block cs.variants).1 = true
    · rw [if_pos hc]
      exact ih _ b (List.mem_append_left _ hb)
    · rw [if_neg hc]
      exact List.mem_append_left _ hb

/-- C1: in the profile-support queries, a variant is reported supported if
and only if every required extension is present in the device-reported
extension list and every feature/property/format comparator call returns
true; a capability set is supported if and only if at least one of its
variants is; and the query's overall supported output is true if and only if
every required capability set of every gathered profile is supported and the
version gates pass (for the device-level query: the requested spec version
does not exceed the declared one and the device API version meets the
profile's minimum; for the instance-level single-profile check: the incoming
supported flag, both version gates, and every capability set having a variant
with all instance extensions present). -/
theorem vpGetPhysicalDeviceProfileVariantsSupport_iff
    (profiles : List VpProfileDesc) (deviceApiVersion : Nat)
    (supportedDeviceExtensions : List VkExtensionProperties)
    (profile : VpProfileProperties)
    (out : Bool × List VpBlockProperties × List VpBlockProperties)
    (hout : vpGetPhysicalDeviceProfileVariantsSupport profiles deviceApiVersion
      supportedDeviceExtensions profile = some out) :
    (∀ v : VpVariantDesc, deviceVariantSupported supportedDeviceExtensions v = true ↔
      ((∀ e ∈ v.deviceExtensions,
          CheckExtension supportedDeviceExtensions e.extensionName = true) ∧
       (∀ b ∈ v.featureChecks, b = true) ∧
       (∀ b ∈ v.propertyChecks, b = true) ∧
       (∀ c ∈ v.formatChecks, ∀ b ∈ c, b = true))) ∧
    (∀ (block : VpBlockProperties) (vs : List VpVariantDesc),
      (deviceCapSet supportedDeviceExtensions block vs).1 = true ↔
        ∃ v ∈ vs, deviceVariantSupported supportedDeviceExtensions v = true) ∧
    (out.1 = true ↔ ∀ gp ∈ GatherProfiles profiles profile,
      ∀ desc, vpGetProfileDesc profiles gp.profileName = some desc →
        gp.specVersion ≤ desc.props.specVersion ∧
        vpCheckVersion deviceApiVersion desc.minApiVersion = true ∧
        ∀ cs ∈ desc.requiredCapabilities, ∃ v ∈ cs.variants,
          deviceVariantSupported supportedDeviceExtensions v = true) ∧
    (∀ (api_version : Nat) (supported_extensions : List VkExtensionProperties)
       (st outInst : SingleProfileState) (desc : VpProfileDesc),
      vpGetProfileDesc profiles profile.profileName = some desc →
      vpGetInstanceProfileSupportSingleProfile profiles api_version
        supported_extensions profile st = some outInst →
      (outInst.supported = true ↔
        (st.supported = true ∧ ¬desc.props.specVersion < profile.specVersion ∧
         (api_version = 0 ∨ vpCheckVersion api_version desc.minApiVersion = true) ∧
         ∀ cs ∈ desc.requiredCapabilities, ∃ v ∈ cs.variants,
           ∀ e ∈ v.instanceExtensions,
             CheckExtension supported_extensions e.extensionName = true))) := by
  refine ⟨?_, ?_, ?_, ?_⟩
  · intro v
    rw [deviceVariantSupported_eq]
    simp [List.all_eq_true, and_assoc]
  · intro block vs
    rw [deviceCapSet_fst]
    simp [List.any_eq_true]
  · rw [vpGetPhysicalDeviceProfileVariantsSupport] at hout
    cases h0 : vpGetProfileDesc profiles profile.profileName with
    | none => rw [h0] at hout; exact absurd hout (by simp)
    | some d0 =>
      rw [h0] at hout
      obtain ⟨h1, h2⟩ := deviceGatherLoop_fst profiles deviceApiVersion
        supportedDeviceExtensions (GatherProfiles profiles profile) (true, [], []) out hout
      rw [h1]
      simp only [Bool.true_and, List.all_eq_true]
      constructor
      · intro hall gp hgp desc hd
        have := hall gp hgp
        rw [deviceProfileEval_fst profiles deviceApiVersion supportedDeviceExtensions
          gp desc hd] at this
        simp only [Option.getD_some, Bool.and_eq_true, decide_eq_true_eq] at this
        obtain ⟨⟨hspec, hapi⟩, hcaps⟩ := this
        refine ⟨Nat.le_of_not_lt hspec, hapi, ?_⟩
        intro cs hcs
        rw [List.all_eq_true] at hcaps
        have := hcaps cs hcs
        rw [deviceCapSet_fst] at this
        simpa [List.any_eq_true] using this
      · intro hall gp hgp
        have hsome := h2 gp hgp
        cases hd : vpGetProfileDesc profiles gp.profileName with
        | none =>
          rw [deviceProfileEval, hd] at hsome
          simp at hsome
        | some desc =>
          have hprops := hall gp hgp desc hd
          rw [deviceProfileEval_fst profiles deviceApiVersion supportedDeviceExtensions
            gp desc hd]
          simp only [Option.getD_some, Bool.and_eq_true, decide_eq_true_eq]
          refine ⟨⟨Nat.not_lt_of_le hprops.1, hprops.2.1⟩, ?_⟩
          rw [List.all_eq_true]
          intro cs hcs
          rw [deviceCapSet_fst]
          have := hprops.2.2 cs hcs
          simpa [List.any_eq_true] using this
  · intro api_version supported_extensions st outInst desc hd hinst
    rw [vpGetInstanceProfileSupportSingleProfile, hd] at hinst
    by_cases hg1 : desc.props.specVersion < profile.specVersion
    · simp only [if_pos hg1] at hinst
      by_cases hg2 : api_version ≠ 0 ∧ vpCheckVersion api_version desc.minApiVersion = false
      · simp only [if_pos hg2, Option.some.injEq] at hinst
        subst hinst
        rw [instCapsLoop_supported]
        simp [hg1]
      · simp only [if_neg hg2, Option.some.injEq] at hinst
        subst hinst
        rw [instCapsLoop_supported]
        simp [hg1]
    · simp only [if_neg hg1] at hinst
      by_cases hg2 : api_version ≠ 0 ∧ vpCheckVersion api_version desc.minApiVersion = false
      · simp only [if_pos hg2, Option.some.injEq] at hinst
        subst hinst
        rw [instCapsLoop_supported]
        have hright : ¬(api_version = 0 ∨
            vpCheckVersion api_version desc.minApiVersion = true) := by
          intro hor
          rcases hor with hz | ht
          · exact hg2.1 hz
          · rw [hg2.2] at ht
            exact Bool.false_ne_true ht
        simp [hg1, hright]
      · simp only [if_neg hg2, Option.some.injEq] at hinst
        subst hinst
        rw [instCapsLoop_supported]
        have hthird : api_version = 0 ∨
            vpCheckVersion api_version desc.minApiVersion = true := by
          by_cases hz : api_version = 0
          · exact Or.inl hz
          · right
            cases hc : vpCheckVersion api_version desc.minApiVersion with
            | false => exact absurd ⟨hz, hc⟩ hg2
            | true => rfl
        simp only [Bool.and_eq_true, List.all_eq_true]
        constructor
        · intro hh
          refine ⟨hh.1, hg1, hthird, ?_⟩
          intro cs hcs
          have := hh.2 cs hcs
          rw [instCapSet_fst] at this
          rw [List.any_eq_true] at this
          obtain ⟨v, hv, hvt⟩ := this
          refine ⟨v, hv, ?_⟩
          rw [instVariantCheck_fst] at hvt
          rw [List.all_eq_true] at hvt
          exact hvt
        · intro hh
          refine ⟨hh.1, ?_⟩
          intro cs hcs
          obtain ⟨v, hv, hvt⟩ := hh.2.2.2 cs hcs
          rw [instCapSet_fst, List.any_eq_true]
          refine ⟨v, hv, ?_⟩
          rw [instVariantCheck_fst, List.all_eq_true]
          exact hvt

/-- Witness for C1 at a concrete one-profile table (name 1, spec version 1,
minimum API 1.0, one capability set with one variant of block name 10 and no
requirements) against a device reporting API 1.0 and no extensions: the query
reports supported with the variant's block recorded. -/
theorem vpGetPhysicalDeviceProfileVariantsSupport_iff_witness :
    (vpGetPhysicalDeviceProfileVariantsSupport
        [VpProfileDesc.mk (VpProfileProperties.mk 1 1) 4194304 []
          [VpCapabilitiesDesc.mk [VpVariantDesc.mk 10 [] [] [] [] []]]]
        4194304 [] (VpProfileProperties.mk 1 1) =
      some (true,
        [VpBlockProperties.mk (VpProfileProperties.mk 1 1) 4194304 10], [])) ∧
    ((true : Bool) = true ↔ ∀ gp ∈ GatherProfiles
        [VpProfileDesc.mk (VpProfileProperties.mk 1 1) 4194304 []
          [VpCapabilitiesDesc.mk [VpVariantDesc.mk 10 [] [] [] [] []]]]
        (VpProfileProperties.mk 1 1),
      ∀ desc, vpGetProfileDesc
          [VpProfileDesc.mk (VpProfileProperties.mk 1 1) 4194304 []
            [VpCapabilitiesDesc.mk [VpVariantDesc.mk 10 [] [] [] [] []]]]
          gp.profileName = some desc →
        gp.specVersion ≤ desc.props.specVersion ∧
        vpCheckVersion 4194304 desc.minApiVersion = true ∧
        ∀ cs ∈ desc.requiredCapabilities, ∃ v ∈ cs.variants,
          deviceVariantSupported [] v = true) :=
  ⟨by decide,
   (vpGetPhysicalDeviceProfileVariantsSupport_iff
     [VpProfileDesc.mk (VpProfileProperties.mk 1 1) 4194304 []
       [VpCapabilitiesDesc.mk [VpVariantDesc.mk 10 [] [] [] [] []]]]
     4194304 [] (VpProfileProperties.mk 1 1)
     (true, [VpBlockProperties.mk (VpProfileProperties.mk 1 1) 4194304 10], [])
     (by decide)).2.2.1⟩

/-- Counterexample to C2 as stated: the profile's declared spec version (2)
exceeds the caller-declared spec version (1), so the claim requires the check
to mark the profile unsupported and record a diagnostic block; the code
tests `props.specVersion < pProfile->specVersion` (the opposite direction),
leaves the supported flag true and records nothing. -/
theorem versionGate_claim_counterexample :
    vpGetInstanceProfileSupportSingleProfile
      [VpProfileDesc.mk (VpProfileProperties.mk 1 2) 4194304 [] []]
      0 [] (VpProfileProperties.mk 1 1) (SingleProfileState.mk true [] []) =
    some (SingleProfileState.mk true [] []) := by
  decide

/-- C2 amended: the single-profile support check marks the profile
unsupported and records a diagnostic block if the caller-declared spec
version exceeds the profile's declared spec version, or if the caller's API
version is non-zero and does not meet the profile's minimum API version. -/
theorem versionGate_marks_unsupported (profiles : List VpProfileDesc)
    (api_version : Nat) (supported_extensions : List VkExtensionProperties)
    (profile : VpProfileProperties) (st : SingleProfileState)
    (desc : VpProfileDesc) (out : SingleProfileState)
    (hd : vpGetProfileDesc profiles profile.profileName = some desc)
    (hgate : desc.props.specVersion < profile.specVersion ∨
      (api_version ≠ 0 ∧ vpCheckVersion api_version desc.minApiVersion = false))
    (hout : vpGetInstanceProfileSupportSingleProfile profiles api_version
      supported_extensions profile st = some out) :
    out.supported = false ∧
    VpBlockProperties.mk profile api_version 0 ∈ out.unsupportedBlocks := by
  rw [vpGetInstanceProfileSupportSingleProfile, hd] at hout
  by_cases hg1 : desc.props.specVersion < profile.specVersion
  · simp only [if_pos hg1] at hout
    by_cases hg2 : api_version ≠ 0 ∧ vpCheckVersion api_version desc.minApiVersion = false
    · simp only [if_pos hg2, Option.some.injEq] at hout
      subst hout
      constructor
      · rw [instCapsLoop_supported]
        simp
      · apply instCapsLoop_unsupported_mono
        simp
    · simp only [if_neg hg2, Option.some.injEq] at hout
      subst hout
      constructor
      · rw [instCapsLoop_supported]
        simp
      · apply instCapsLoop_unsupported_mono
        simp
  · have hg2 : api_version ≠ 0 ∧ vpCheckVersion api_version desc.minApiVersion = false := by
      rcases hgate with hga | hgb
      · exact absurd hga hg1
      · exact hgb
    simp only [if_neg hg1, if_pos hg2, Option.some.injEq] at hout
    subst hout
    constructor
    · rw [instCapsLoop_supported]
      simp
    · apply instCapsLoop_unsupported_mono
      simp

/-- Witness for the amended C2: the caller requests spec version 3 of a
profile declared at spec version 2; the check clears the supported flag and
records the diagnostic block. -/
theorem versionGate_marks_unsupported_witness :
    (vpGetProfileDesc [VpProfileDesc.mk (VpProfileProperties.mk 1 2) 4194304 [] []]
        (VpProfileProperties.mk 1 3).profileName =
      some (VpProfileDesc.mk (VpProfileProperties.mk 1 2) 4194304 [] [])) ∧
    ((SingleProfileState.mk false []
        [VpBlockProperties.mk (VpProfileProperties.mk 1 3) 0 0]).supported = false ∧
      VpBlockProperties.mk (VpProfileProperties.mk 1 3) 0 0 ∈
        (SingleProfileState.mk false []
          [VpBlockProperties.mk (VpProfileProperties.mk 1 3) 0 0]).unsupportedBlocks) :=
  ⟨by decide,
   versionGate_marks_unsupported
     [VpProfileDesc.mk (VpProfileProperties.mk 1 2) 4194304 [] []]
     0 [] (VpProfileProperties.mk 1 3) (SingleProfileState.mk true [] [])
     (VpProfileDesc.mk (VpProfileProperties.mk 1 2) 4194304 [] [])
     (SingleProfileState.mk false []
       [VpBlockProperties.mk (VpProfileProperties.mk 1 3) 0 0])
     (by decide) (Or.inl (by decide)) (by decide)⟩

/-- Counterexample to C8 as stated: in the instance support path
(vulkan_profiles.cpp:1659-1677) there is no break after a supported variant.
With the first variant (block name 10, no requirements) supported, the second
variant (block name 20, requiring an unavailable extension) is still
evaluated and its block is recorded in the unsupported list. -/
theorem capSet_short_circuit_counterexample :
    instCapSet [] (VpBlockProperties.mk (VpProfileProperties.mk 1 1) 0 0)
      [VpVariantDesc.mk 10 [] [] [] [] [],
       VpVariantDesc.mk 20 [VkExtensionProperties.mk 7 1] [] [] [] []] =
    (true,
      [VpBlockProperties.mk (VpProfileProperties.mk 1 1) 0 10],
      [VpBlockProperties.mk (VpProfileProperties.mk 1 1) 0 20]) ∧
    VpBlockProperties.mk (VpProfileProperties.mk 1 1) 0 20 ∈
      (instCapSet [] (VpBlockProperties.mk (VpProfileProperties.mk 1 1) 0 0)
        [VpVariantDesc.mk 10 [] [] [] [] [],
         VpVariantDesc.mk 20 [VkExtensionProperties.mk 7 1] [] [] [] []]).2.2 := by
  constructor
  · decide
  · decide

/-- C8 amended: only the device query short-circuits.  In the device path
(vulkan_profiles.cpp:2554-2645), once a fully supported variant is found the
remaining variants of the set are neither evaluated nor recorded: the result
is the single supported block plus the blocks of the earlier unsupported
variants.  In the instance path (vulkan_profiles.cpp:1659-1677) every
variant is always scanned: the supported list collects every supported
variant's block and the unsupported list collects a block per missing
extension of every variant. -/
theorem capSet_first_match_scan (exts : List VkExtensionProperties)
    (blk : VpBlockProperties) (pre : List VpVariantDesc) (v : VpVariantDesc)
    (rest vs : List VpVariantDesc)
    (hpre : ∀ u ∈ pre, deviceVariantSupported exts u = false)
    (hv : deviceVariantSupported exts v = true) :
    deviceCapSet exts blk (pre ++ v :: rest) =
      (true, [setBlockName blk v.blockName],
        pre.map (fun u => setBlockName blk u.blockName)) ∧
    instCapSet exts blk vs =
      (vs.any (fun u => (instVariantCheck exts blk u).1),
        (vs.filter (fun u => (instVariantCheck exts blk u).1)).map
          (fun u => setBlockName blk u.blockName),
        (vs.map (fun u => (instVariantCheck exts blk u).2)).flatten) := by
  constructor
  · induction pre with
    | nil =>
      rw [List.nil_append, deviceCapSet, if_pos hv]
      simp
    | cons u pre' ih =>
      have hu : deviceVariantSupported exts u = false := hpre u (List.mem_cons_self u pre')
      rw [List.cons_append, deviceCapSet, if_neg (by rw [hu]; exact Bool.false_ne_true)]
      rw [ih (fun w hw => hpre w (List.mem_cons_of_mem u hw))]
      simp
  · induction vs with
    | nil => simp [instCapSet]
    | cons u rest' ih =>
      rw [instCapSet]
      by_cases hu : (instVariantCheck exts blk u).1 = true
      · rw [if_pos hu, ih]
        simp [List.filter_cons, hu]
      · rw [if_neg hu, ih]
        simp [List.filter_cons, hu, Bool.eq_false_iff.mpr hu]

/-- Witness for the amended C8: one supported variant (block 10) followed by
one unsupported variant (block 20, missing extension 7).  The device path
stops at block 10 and records nothing else; the instance path scans both,
recording block 10 supported and block 20 unsupported. -/
theorem capSet_first_match_scan_witness :
    (∀ u ∈ ([] : List VpVariantDesc), deviceVariantSupported [] u = false) ∧
    deviceVariantSupported [] (VpVariantDesc.mk 10 [] [] [] [] []) = true ∧
    deviceCapSet [] (VpBlockProperties.mk (VpProfileProperties.mk 1 1) 0 0)
      ([] ++ VpVariantDesc.mk 10 [] [] [] [] [] ::
        [VpVariantDesc.mk 20 [VkExtensionProperties.mk 7 1] [] [] [] []]) =
      (true,
        [setBlockName (VpBlockProperties.mk (VpProfileProperties.mk 1 1) 0 0)
          (VpVariantDesc.mk 10 [] [] [] [] []).blockName],
        ([] : List VpVariantDesc).map
          (fun u => setBlockName
            (VpBlockProperties.mk (VpProfileProperties.mk 1 1) 0 0) u.blockName)) ∧
    instCapSet [] (VpBlockProperties.mk (VpProfileProperties.mk 1 1) 0 0)
      [VpVariantDesc.mk 10 [] [] [] [] [],
       VpVariantDesc.mk 20 [VkExtensionProperties.mk 7 1] [] [] [] []] =
      ([VpVariantDesc.mk 10 [] [] [] [] [],
        VpVariantDesc.mk 20 [VkExtensionProperties.mk 7 1] [] [] [] []].any
          (fun u => (instVariantCheck []
            (VpBlockProperties.mk (VpProfileProperties.mk 1 1) 0 0) u).1),
        ([VpVariantDesc.mk 10 [] [] [] [] [],
          VpVariantDesc.mk 20 [VkExtensionProperties.mk 7 1] [] [] [] []].filter
            (fun u => (instVariantCheck []
              (VpBlockProperties.mk (VpProfileProperties.mk 1 1) 0 0) u).1)).map
          (fun u => setBlockName
            (VpBlockProperties.mk (VpProfileProperties.mk 1 1) 0 0) u.blockName),
        ([VpVariantDesc.mk 10 [] [] [] [] [],
          VpVariantDesc.mk 20 [VkExtensionProperties.mk 7 1] [] [] [] []].map
            (fun u => (instVariantCheck []
              (VpBlockProperties.mk (VpProfileProperties.mk 1 1) 0 0) u).2)).flatten) :=
  ⟨by decide, by decide,
   capSet_first_match_scan []
     (VpBlockProperties.mk (VpProfileProperties.mk 1 1) 0 0)
     [] (VpVariantDesc.mk 10 [] [] [] [] [])
     [VpVariantDesc.mk 20 [VkExtensionProperties.mk 7 1] [] [] [] []]
     [VpVariantDesc.mk 10 [] [] [] [] [],
      VpVariantDesc.mk 20 [VkExtensionProperties.mk 7 1] [] [] [] []]
     (by decide) (by decide)⟩

/-- The VkResult values returned by the embedded entry points. -/
inductive VkResult where
  | success
  | incomplete
  | errorUnknown
  | errorInitializationFailed
  | errorExtensionNotPresent
deriving DecidableEq

/-- Embedding of `vpGetProfiles` (vulkan_profiles.cpp:2058-2072).  The output
buffer is modelled by `hasBuffer` (pProperties non-null) and the returned
triple is (result, count output, entries written): a null buffer stores the
table size in the count; a short buffer keeps the caller's count, returns
VK_INCOMPLETE and writes that many entries; otherwise the count becomes the
table size and all entries are written. -/
def vpGetProfiles (tbl : List VpProfileDesc) (hasBuffer : Bool) (countIn : Nat) :
    VkResult × Nat × List VpProfileProperties :=
  if hasBuffer = false then
    (VkResult.success, tbl.length, [])
  else if countIn < tbl.length then
    (VkResult.incomplete, countIn, (tbl.map (fun d => d.props)).take countIn)
  else
    (VkResult.success, tbl.length, (tbl.map (fun d => d.props)).take tbl.length)

/-- Embedding of `detail::HasExtension` (vulkan_profiles.cpp:1562-1570):
membership by extension name. -/
def HasExtension (list : List VkExtensionProperties)
    (element : VkExtensionProperties) : Bool :=
  list.any (fun e => e.extensionName = element.extensionName)

/-- The `results.push_back` guarded by `HasExtension`
(vulkan_profiles.cpp:1823-1836). -/
def pushUnique (results : List VkExtensionProperties)
    (e : VkExtensionProperties) : List VkExtensionProperties :=
  if HasExtension results e then results else results ++ [e]

/-- The variant extension list selected by the `type` switch
(vulkan_profiles.cpp:1820-1838): instance or device extensions. -/
def variantExts (isInstance : Bool) (v : VpVariantDesc) :
    List VkExtensionProperties :=
  if isInstance then v.instanceExtensions else v.deviceExtensions

/-- The per-variant body of `detail::vpGetProfileExtensionProperties`
(vulkan_profiles.cpp:1811-1839): with a block name the variant is skipped
unless its name matches (a match also forces the result to VK_SUCCESS);
then the variant's extensions are appended without duplicates. -/
def extCollectVariant (blockName : Option Nat) (isInstance : Bool)
    (acc : VkResult × List VkExtensionProperties) (v : VpVariantDesc) :
    VkResult × List VkExtensionProperties :=
  match blockName with
  | some b =>
    if v.blockName ≠ b then acc
    else (VkResult.success, (variantExts isInstance v).foldl pushUnique acc.2)
  | none => (acc.1, (variantExts isInstance v).foldl pushUnique acc.2)

/-- Embedding of `detail::GatherProfiles` (vulkan_profiles.cpp:1537-1552)
with its optional block-name argument: required profiles are only gathered
when no block name is given. -/
def GatherProfilesB (tbl : List VpProfileDesc) (profile : VpProfileProperties)
    (blockName : Option Nat) : List VpProfileProperties :=
  match blockName with
  | none => GatherProfiles tbl profile
  | some _ => [profile]

/-- The gathered-profile loop of `detail::vpGetProfileExtensionProperties`
(vulkan_profiles.cpp:1802-1841); `none` models the early VK_ERROR_UNKNOWN
return for an unknown profile name. -/
def extCollectLoop (tbl : List VpProfileDesc) (blockName : Option Nat)
    (isInstance : Bool) :
    List VpProfileProperties → VkResult × List VkExtensionProperties →
      Option (VkResult × List VkExtensionProperties)
  | [], acc => some acc
  | gp :: rest, acc =>
    match vpGetProfileDesc tbl gp.profileName with
    | none => none
    | some desc =>
      extCollectLoop tbl blockName isInstance rest
        (desc.requiredCapabilities.foldl
          (fun a cs => cs.variants.foldl (extCollectVariant blockName isInstance) a)
          acc)

/-- The collected result/extension pair of
`detail::vpGetProfileExtensionProperties` before the sizing tail: the result
starts at VK_SUCCESS without a block name and VK_INCOMPLETE with one
(vulkan_profiles.cpp:1796). -/
def extResults (tbl : List VpProfileDesc) (profile : VpProfileProperties)
    (blockName : Option Nat) (isInstance : Bool) :
    Option (VkResult × List VkExtensionProperties) :=
  extCollectLoop tbl blockName isInstance (GatherProfilesB tbl profile blockName)
    (match blockName with
     | none => VkResult.success
     | some _ => VkResult.incomplete, [])

/-- Embedding of `detail::vpGetProfileExtensionProperties`
(vulkan_profiles.cpp:1783-1859): the collection phase followed by the sizing
tail (vulkan_profiles.cpp:1843-1856), which mirrors the one of
`vpGetProfiles`. -/
def vpGetProfileExtensionProperties (tbl : List VpProfileDesc)
    (profile : VpProfileProperties) (blockName : Option Nat) (isInstance : Bool)
    (hasBuffer : Bool) (countIn : Nat) :
    Option (VkResult × Nat × List VkExtensionProperties) :=
  match extResults tbl profile blockName isInstance with
  | none => none
  | some (result, results) =>
    if hasBuffer = false then
      some (result, results.length, [])
    else if countIn < results.length then
      some (VkResult.incomplete, countIn, results.take countIn)
    else
      some (result, results.length, results.take results.length)

/-- Unfolding of `vpGetProfileExtensionProperties` once the collection phase
has produced a result/extension pair. -/
theorem vpGetProfileExtensionProperties_eq_some (tbl : List VpProfileDesc)
    (profile : VpProfileProperties) (blockName : Option Nat) (isInstance : Bool)
    (hasBuffer : Bool) (countIn : Nat) (res : VkResult)
    (results : List VkExtensionProperties)
    (hres : extResults tbl profile blockName isInstance = some (res, results)) :
    vpGetProfileExtensionProperties tbl profile blockName isInstance
      hasBuffer countIn =
      (if hasBuffer = false then some (res, results.length, [])
       else if countIn < results.length then
         some (VkResult.incomplete, countIn, results.take countIn)
       else some (res, results.length, results.take results.length)) := by
  rw [vpGetProfileExtensionProperties, hres]

/-- C9: both embedded sizing queries follow the two-call convention.  With a
null buffer the count output is the number of available entries (the profile
table size, respectively the collected extension count reported by the
null-buffer call).  With a buffer smaller than the available count the
function returns VK_INCOMPLETE, reports the caller's count back, and writes
exactly that many entries — a prefix of the full result list — rather than
truncating silently. -/
theorem bufferSizing_two_call (tbl : List VpProfileDesc)
    (profile : VpProfileProperties) (blockName : Option Nat) (isInstance : Bool)
    (countIn : Nat) (r0 r : VkResult) (avail countOut : Nat)
    (written : List VkExtensionProperties)
    (hnull : vpGetProfileExtensionProperties tbl profile blockName isInstance
      false 0 = some (r0, avail, []))
    (hbuf : vpGetProfileExtensionProperties tbl profile blockName isInstance
      true countIn = some (r, countOut, written))
    (hlt : countIn < avail) :
    ((vpGetProfiles tbl false countIn).1 = VkResult.success ∧
      (vpGetProfiles tbl false countIn).2.1 = tbl.length ∧
      (countIn < tbl.length →
        (vpGetProfiles tbl true countIn).1 = VkResult.incomplete ∧
        (vpGetProfiles tbl true countIn).2.1 = countIn ∧
        (vpGetProfiles tbl true countIn).2.2 =
          (tbl.map (fun d => d.props)).take countIn ∧
        ((vpGetProfiles tbl true countIn).2.2).length = countIn)) ∧
    r = VkResult.incomplete ∧ countOut = countIn ∧ written.length = countIn ∧
    ∃ results : List VkExtensionProperties, results.length = avail ∧
      written = results.take countIn := by
  constructor
  · refine ⟨by simp [vpGetProfiles], by simp [vpGetProfiles], ?_⟩
    intro hc
    refine ⟨by simp [vpGetProfiles, hc], by simp [vpGetProfiles, hc],
      by simp [vpGetProfiles, hc], ?_⟩
    simp [vpGetProfiles, hc]
    omega
  · rcases hres : extResults tbl profile blockName isInstance with _ | ⟨res, results⟩
    · rw [vpGetProfileExtensionProperties, hres] at hnull
      exact absurd hnull (by simp)
    · rw [vpGetProfileExtensionProperties_eq_some tbl profile blockName isInstance
        false 0 res results hres, if_pos rfl] at hnull
      have h1 := Option.some.inj hnull
      have havail : results.length = avail := congrArg (fun p => p.2.1) h1
      have hlt' : countIn < results.length := by rw [havail]; exact hlt
      have htrue : ¬ (true = false) := by simp
      rw [vpGetProfileExtensionProperties_eq_some tbl profile blockName isInstance
        true countIn res results hres, if_neg htrue, if_pos hlt'] at hbuf
      have h2 := Option.some.inj hbuf
      have hr : VkResult.incomplete = r := congrArg Prod.fst h2
      have hcount : countIn = countOut := congrArg (fun p => p.2.1) h2
      have hwr : results.take countIn = written := congrArg (fun p => p.2.2) h2
      refine ⟨hr.symm, hcount.symm, ?_, results, havail, hwr.symm⟩
      rw [← hwr, List.length_take]
      omega

/-- Witness for C9 at a two-profile table whose first profile carries two
instance extensions (names 5 and 6) in a single variant: the null-buffer
extension query reports 2 available, the one-slot call returns VK_INCOMPLETE
with one entry written, and the profile query with a one-slot buffer over
the two-profile table behaves the same way. -/
theorem bufferSizing_two_call_witness :
    (vpGetProfileExtensionProperties
        [VpProfileDesc.mk (VpProfileProperties.mk 1 1) 1 []
          [VpCapabilitiesDesc.mk
            [VpVariantDesc.mk 10
              [VkExtensionProperties.mk 5 1, VkExtensionProperties.mk 6 1]
              [] [] [] []]],
         VpProfileDesc.mk (VpProfileProperties.mk 2 1) 1 [] []]
        (VpProfileProperties.mk 1 1) none true false 0 =
      some (VkResult.success, 2, [])) ∧
    (vpGetProfileExtensionProperties
        [VpProfileDesc.mk (VpProfileProperties.mk 1 1) 1 []
          [VpCapabilitiesDesc.mk
            [VpVariantDesc.mk 10
              [VkExtensionProperties.mk 5 1, VkExtensionProperties.mk 6 1]
              [] [] [] []]],
         VpProfileDesc.mk (VpProfileProperties.mk 2 1) 1 [] []]
        (VpProfileProperties.mk 1 1) none true true 1 =
      some (VkResult.incomplete, 1, [VkExtensionProperties.mk 5 1])) ∧
    (1 < 2) ∧
    (((vpGetProfiles
        [VpProfileDesc.mk (VpProfileProperties.mk 1 1) 1 []
          [VpCapabilitiesDesc.mk
            [VpVariantDesc.mk 10
              [VkExtensionProperties.mk 5 1, VkExtensionProperties.mk 6 1]
              [] [] [] []]],
         VpProfileDesc.mk (VpProfileProperties.mk 2 1) 1 [] []]
        false 1).1 = VkResult.success ∧
      (vpGetProfiles
        [VpProfileDesc.mk (VpProfileProperties.mk 1 1) 1 []
          [VpCapabilitiesDesc.mk
            [VpVariantDesc.mk 10
              [VkExtensionProperties.mk 5 1, VkExtensionProperties.mk 6 1]
              [] [] [] []]],
         VpProfileDesc.mk (VpProfileProperties.mk 2 1) 1 [] []]
        false 1).2.1 =
        [VpProfileDesc.mk (VpProfileProperties.mk 1 1) 1 []
          [VpCapabilitiesDesc.mk
            [VpVariantDesc.mk 10
              [VkExtensionProperties.mk 5 1, VkExtensionProperties.mk 6 1]
              [] [] [] []]],
         VpProfileDesc.mk (VpProfileProperties.mk 2 1) 1 [] []].length ∧
      (1 < [VpProfileDesc.mk (VpProfileProperties.mk 1 1) 1 []
          [VpCapabilitiesDesc.mk
            [VpVariantDesc.mk 10
              [VkExtensionProperties.mk 5 1, VkExtensionProperties.mk 6 1]
              [] [] [] []]],
         VpProfileDesc.mk (VpProfileProperties.mk 2 1) 1 [] []].length →
        (vpGetProfiles
          [VpProfileDesc.mk (VpProfileProperties.mk 1 1) 1 []
            [VpCapabilitiesDesc.mk
              [VpVariantDesc.mk 10
                [VkExtensionProperties.mk 5 1, VkExtensionProperties.mk 6 1]
                [] [] [] []]],
           VpProfileDesc.mk (VpProfileProperties.mk 2 1) 1 [] []]
          true 1).1 = VkResult.incomplete ∧
        (vpGetProfiles
          [VpProfileDesc.mk (VpProfileProperties.mk 1 1) 1 []
            [VpCapabilitiesDesc.mk
              [VpVariantDesc.mk 10
                [VkExtensionProperties.mk 5 1, VkExtensionProperties.mk 6 1]
                [] [] [] []]],
           VpProfileDesc.mk (VpProfileProperties.mk 2 1) 1 [] []]
          true 1).2.1 = 1 ∧
        (vpGetProfiles
          [VpProfileDesc.mk (VpProfileProperties.mk 1 1) 1 []
            [VpCapabilitiesDesc.mk
              [VpVariantDesc.mk 10
                [VkExtensionProperties.mk 5 1, VkExtensionProperties.mk 6 1]
                [] [] [] []]],
           VpProfileDesc.mk (VpProfileProperties.mk 2 1) 1 [] []]
          true 1).2.2 =
          ([VpProfileDesc.mk (VpProfileProperties.mk 1 1) 1 []
            [VpCapabilitiesDesc.mk
              [VpVariantDesc.mk 10
                [VkExtensionProperties.mk 5 1, VkExtensionProperties.mk 6 1]
                [] [] [] []]],
           VpProfileDesc.mk (VpProfileProperties.mk 2 1) 1 [] []].map
            (fun d => d.props)).take 1 ∧
        ((vpGetProfiles
          [VpProfileDesc.mk (VpProfileProperties.mk 1 1) 1 []
            [VpCapabilitiesDesc.mk
              [VpVariantDesc.mk 10
                [VkExtensionProperties.mk 5 1, VkExtensionProperties.mk 6 1]
                [] [] [] []]],
           VpProfileDesc.mk (VpProfileProperties.mk 2 1) 1 [] []]
          true 1).2.2).length = 1)) ∧
      VkResult.incomplete = VkResult.incomplete ∧ (1 : Nat) = 1 ∧
      ([VkExtensionProperties.mk 5 1].length = 1) ∧
      ∃ results : List VkExtensionProperties, results.length = 2 ∧
        [VkExtensionProperties.mk 5 1] = results.take 1) :=
  ⟨by decide, by decide, by decide,
   bufferSizing_two_call
     [VpProfileDesc.mk (VpProfileProperties.mk 1 1) 1 []
       [VpCapabilitiesDesc.mk
         [VpVariantDesc.mk 10
           [VkExtensionProperties.mk 5 1, VkExtensionProperties.mk 6 1]
           [] [] [] []]],
      VpProfileDesc.mk (VpProfileProperties.mk 2 1) 1 [] []]
     (VpProfileProperties.mk 1 1) none true 1
     VkResult.success VkResult.incomplete 2 1
     [VkExtensionProperties.mk 5 1]
     (by decide) (by decide) (by decide)⟩

/-- The foreign entry points of `VpVulkanFunctions`
(vulkan_profiles.cpp:1863-1888); each field records whether the
corresponding pointer is non-null. -/
structure VpVulkanFunctions where
  GetInstanceProcAddr : Bool
  GetDeviceProcAddr : Bool
  EnumerateInstanceVersion : Bool
  EnumerateInstanceExtensionProperties : Bool
  EnumerateDeviceExtensionProperties : Bool
  GetPhysicalDeviceFeatures2 : Bool
  GetPhysicalDeviceProperties2 : Bool
  GetPhysicalDeviceFormatProperties2 : Bool
  GetPhysicalDeviceQueueFamilyProperties2 : Bool
  CreateInstance : Bool
  CreateDevice : Bool
deriving DecidableEq

/-- `VpCapabilitiesCreateInfo`: whether VP_PROFILE_CREATE_STATIC_BIT is set
in `flags`, and the optional caller-supplied function table. -/
structure VpCapabilitiesCreateInfo where
  staticBit : Bool
  pVulkanFunctions : Option VpVulkanFunctions
deriving DecidableEq

/-- `VpCapabilities_T` (vulkan_profiles.cpp:1863-1865): the function table
plus the object's `apiVersion`, which stays at its initializer
VK_API_VERSION_1_0 = 4194304. -/
structure VpCapabilities_T where
  fns : VpVulkanFunctions
  apiVersion : Nat
deriving DecidableEq

/-- The `VpCapabilities_T` constructor (vulkan_profiles.cpp:1876-1888): all
entry points null, `apiVersion` at VK_API_VERSION_1_0. -/
def newVpCapabilities : VpCapabilities_T :=
  VpCapabilities_T.mk
    (VpVulkanFunctions.mk false false false false false false false false
      false false false) 4194304

/-- `ImportVulkanFunctions_Static` (vulkan_profiles.cpp:1912-1928): every
entry point is assigned a linked symbol, so all become non-null. -/
def ImportVulkanFunctions_Static (c : VpCapabilities_T) : VpCapabilities_T :=
  VpCapabilities_T.mk
    (VpVulkanFunctions.mk true true true true true true true true true
      true true) c.apiVersion

/-- `ImportVulkanFunctions_Custom` (vulkan_profiles.cpp:1930-1948): each
caller-supplied pointer overwrites the field only when non-null, so a field
ends up non-null exactly when either side was. -/
def ImportVulkanFunctions_Custom (c : VpCapabilities_T)
    (p : VpVulkanFunctions) : VpCapabilities_T :=
  VpCapabilities_T.mk
    (VpVulkanFunctions.mk
      (c.fns.GetInstanceProcAddr || p.GetInstanceProcAddr)
      (c.fns.GetDeviceProcAddr || p.GetDeviceProcAddr)
      (c.fns.EnumerateInstanceVersion || p.EnumerateInstanceVersion)
      (c.fns.EnumerateInstanceExtensionProperties ||
        p.EnumerateInstanceExtensionProperties)
      (c.fns.EnumerateDeviceExtensionProperties ||
        p.EnumerateDeviceExtensionProperties)
      (c.fns.GetPhysicalDeviceFeatures2 || p.GetPhysicalDeviceFeatures2)
      (c.fns.GetPhysicalDeviceProperties2 || p.GetPhysicalDeviceProperties2)
      (c.fns.GetPhysicalDeviceFormatProperties2 ||
        p.GetPhysicalDeviceFormatProperties2)
      (c.fns.GetPhysicalDeviceQueueFamilyProperties2 ||
        p.GetPhysicalDeviceQueueFamilyProperties2)
      (c.fns.CreateInstance || p.CreateInstance)
      (c.fns.CreateDevice || p.CreateDevice)) c.apiVersion

/-- `VpCapabilities_T::ValidateVulkanFunctions`
(vulkan_profiles.cpp:1977-2023): sequential null checks;
VK_API_VERSION_1_1 = 4198400 decides between VK_ERROR_INITIALIZATION_FAILED
and VK_ERROR_EXTENSION_NOT_PRESENT for the GetPhysicalDevice*2 family. -/
def ValidateVulkanFunctions (c : VpCapabilities_T) : VkResult :=
  if c.fns.GetInstanceProcAddr = false then
    VkResult.errorInitializationFailed
  else if c.fns.GetDeviceProcAddr = false then
    VkResult.errorInitializationFailed
  else if c.fns.EnumerateInstanceVersion = false ∧ 4198400 ≤ c.apiVersion then
    VkResult.errorInitializationFailed
  else if c.fns.EnumerateInstanceExtensionProperties = false then
    VkResult.errorInitializationFailed
  else if c.fns.EnumerateDeviceExtensionProperties = false then
    VkResult.errorInitializationFailed
  else if c.fns.GetPhysicalDeviceFeatures2 = false then
    (if 4198400 ≤ c.apiVersion then VkResult.errorInitializationFailed
     else VkResult.errorExtensionNotPresent)
  else if c.fns.GetPhysicalDeviceProperties2 = false then
    (if 4198400 ≤ c.apiVersion then VkResult.errorInitializationFailed
     else VkResult.errorExtensionNotPresent)
  else if c.fns.GetPhysicalDeviceFormatProperties2 = false then
    (if 4198400 ≤ c.apiVersion then VkResult.errorInitializationFailed
     else VkResult.errorExtensionNotPresent)
  else if c.fns.GetPhysicalDeviceQueueFamilyProperties2 = false then
    (if 4198400 ≤ c.apiVersion then VkResult.errorInitializationFailed
     else VkResult.errorExtensionNotPresent)
  else if c.fns.CreateInstance = false then
    VkResult.errorInitializationFailed
  else if c.fns.CreateDevice = false then
    VkResult.errorInitializationFailed
  else VkResult.success

/-- `VpCapabilities_T::ImportVulkanFunctions` followed by validation
(vulkan_profiles.cpp:1896-1910): static import when the bit is set, then the
caller's table, then `ValidateVulkanFunctions`; also the body of `init`. -/
def ImportVulkanFunctions (c : VpCapabilities_T)
    (ci : VpCapabilitiesCreateInfo) : VkResult × VpCapabilities_T :=
  let c1 := if ci.staticBit then ImportVulkanFunctions_Static c else c
  let c2 := match ci.pVulkanFunctions with
    | some p => ImportVulkanFunctions_Custom c1 p
    | none => c1
  (ValidateVulkanFunctions c2, c2)

/-- Embedding of `vpCreateCapabilities` (vulkan_profiles.cpp:2026-2037): a
fresh object is allocated, `init` runs, and the object is stored through the
output handle unconditionally before the result is returned.  The second
component models `*pCapabilities` (`none` would mean left unwritten). -/
def vpCreateCapabilities (ci : VpCapabilitiesCreateInfo) :
    VkResult × Option VpCapabilities_T :=
  let r := ImportVulkanFunctions newVpCapabilities ci
  (r.1, some r.2)

/-- C10: for every create-info, `vpCreateCapabilities` stores the newly
initialized object through the output handle — the handle output is `some`
of the initialized object whatever the result — and in particular with
neither the static bit nor a caller table every entry point stays null, the
call returns VK_ERROR_INITIALIZATION_FAILED, and the handle is still
overwritten with the fresh object. -/
theorem vpCreateCapabilities_always_stores (ci : VpCapabilitiesCreateInfo) :
    (vpCreateCapabilities ci).2 =
      some (ImportVulkanFunctions newVpCapabilities ci).2 ∧
    vpCreateCapabilities (VpCapabilitiesCreateInfo.mk false none) =
      (VkResult.errorInitializationFailed, some newVpCapabilities) :=
  ⟨rfl, by decide⟩
